import Mathlib

/-!
Verification development for the godon controller core
(`controller/breeder_service.py`, `controller/config.py`).

The Python configuration trees are shallowly embedded as `PyVal`
(Python dicts become ordered association lists with string keys,
matching Python's insertion-ordered dicts).  Python numeric values
(int and float) are modelled exactly: ints as `Int`, floats as exact
rationals `ℚ`.  The sharder is embedded twice: `shardConstraint`
idealizes CPython float arithmetic as exact rational arithmetic
(adequate for bounds and frame properties), and `shardConstraintFloat`
/ `determine_config_shard_float` implement faithful IEEE-754 binary64
round-to-nearest-even arithmetic, needed for rounding-sensitive
exact-equality claims.  Python's `bool` is a subtype of `int`, so
numeric predicates accept booleans.

The SHA-256 hash used by `determine_config_shard` is modelled as an
uninterpreted function parameter `hash : String → Nat`; all theorems
about the sharder quantify over it, i.e. they hold for every possible
digest value.
-/

set_option maxHeartbeats 1000000
set_option maxRecDepth 8000

namespace Godon

/-- Embedded Python value: the subset of Python data manipulated by the
controller (strings, ints, floats, bools, None, lists, dicts). -/
inductive PyVal where
  | str (s : String)
  | int (n : Int)
  | float (q : ℚ)
  | bool (b : Bool)
  | none
  | list (xs : List PyVal)
  | dict (kvs : List (String × PyVal))

/-- Association-list lookup, mirroring Python `d[k]` / `d.get(k)` on a
dict with (unique, insertion-ordered) keys. -/
def dlookup : List (String × PyVal) → String → Option PyVal
  | [], _ => Option.none
  | (k', v) :: rest, k => if k' = k then some v else dlookup rest k

/-- Python `d[k] = v`: replaces the value at an existing key in place
(keeping its position), or appends a new binding at the end. -/
def setKey : List (String × PyVal) → String → PyVal → List (String × PyVal)
  | [], k, v => [(k, v)]
  | (k', v') :: rest, k, v =>
      if k' = k then (k, v) :: rest else (k', v') :: setKey rest k v

/-- Python `d.get(k, default)` for a `PyVal` dict; non-dicts have no
`.get` (Python would raise), modelled as the default. -/
def PyVal.getD (v : PyVal) (k : String) (d : PyVal) : PyVal :=
  match v with
  | .dict kvs => (dlookup kvs k).getD d
  | _ => d

/-- Python `d.get(k)` (default `None`). -/
def PyVal.get? (v : PyVal) (k : String) : Option PyVal :=
  match v with
  | .dict kvs => dlookup kvs k
  | _ => Option.none

/-- Python `k in d` for a dict. -/
def hasKey (kvs : List (String × PyVal)) (k : String) : Bool :=
  (dlookup kvs k).isSome

/-- Python `isinstance(v, (int, float))`.  Note Python's `bool` is a
subclass of `int`, so booleans count as numeric. -/
def isNumericPy : PyVal → Bool
  | .int _ => true
  | .float _ => true
  | .bool _ => true
  | _ => false

/-- Python `isinstance(v, int)` (booleans included, as in Python). -/
def isIntPy : PyVal → Bool
  | .int _ => true
  | .bool _ => true
  | _ => false

/-- Numeric value of a Python number (booleans are 0/1). -/
def toRat : PyVal → ℚ
  | .int n => (n : ℚ)
  | .float q => q
  | .bool b => if b then 1 else 0
  | _ => 0

/-- Python truthiness: `None`, `False`, `0`, `0.0`, `""`, `[]`, `{}`
are falsy, everything else truthy. -/
def pyFalsy : PyVal → Bool
  | .none => true
  | .bool b => !b
  | .int n => n = 0
  | .float q => q = 0
  | .str s => s = ""
  | .list xs => xs.isEmpty
  | .dict kvs => kvs.isEmpty

/-- Python `len` on sized values (0 on unsized values, where Python
would raise `TypeError`; theorems restrict to sized inputs). -/
def pyLen : PyVal → Nat
  | .str s => s.length
  | .list xs => xs.length
  | .dict kvs => kvs.length
  | _ => 0

/-- Python `type(v).__name__`, used in validation error messages. -/
def pyTypeName : PyVal → String
  | .str _ => "str"
  | .int _ => "int"
  | .float _ => "float"
  | .bool _ => "bool"
  | .none => "NoneType"
  | .list _ => "list"
  | .dict _ => "dict"

/-- Python `str(v)` as it appears inside f-string error messages.
Only strings and ints occur in the messages the theorems inspect;
floats are rendered as exact rationals (Python's repr of IEEE floats
is not modelled). -/
def pyStr : PyVal → String
  | .str s => s
  | .int n => toString n
  | .bool b => if b then "True" else "False"
  | .none => "None"
  | .float q => toString q
  | .list _ => "[...]"
  | .dict _ => "{...}"

/-- Python `s.strip() == ""`: the string is empty or all whitespace. -/
def stripIsEmpty (s : String) : Bool :=
  s.data.all (fun c => c.isWhitespace)

/-- Python `int(q)` for `q ≥ 0` (truncation towards zero coincides with
floor on non-negative arguments; the sharder only truncates a
non-negative product). -/
def ratTrunc (q : ℚ) : Int :=
  if 0 ≤ q then ⌊q⌋ else -⌊-q⌋

/-- Python `max(a, b)` on two numbers: returns the second argument only
when it is strictly greater (so on ties the first original object is
returned, preserving its int/float type). -/
def pyMax (a b : PyVal) : PyVal :=
  if toRat a < toRat b then b else a

/-- Python `min(a, b)`: returns the second argument only when it is
strictly smaller. -/
def pyMin (a b : PyVal) : PyVal :=
  if toRat b < toRat a then b else a

/-! ## The sharding algorithm (`determine_config_shard`) -/

/-- The settings categories the sharder (and validator) support, in
source order. -/
def supported_categories : List String := ["sysctl", "sysfs", "cpufreq", "ethtool"]

/-- Shard one constraint (`breeder_service.py` lines 94-131): integer
ranges (all of `step`,`lower`,`upper` present, `lower`/`upper`
numeric) get hash-assigned sub-ranges with 10% overlap, clamped to the
original bounds; anything else is returned unchanged. -/
def shardConstraint (hash : String → Nat) (run_id target_id total_shards : Nat)
    (category setting_key : String) (constraint_idx : Nat) (c : PyVal) : PyVal :=
  match c with
  | .dict kvs =>
    if hasKey kvs "step" && hasKey kvs "lower" && hasKey kvs "upper" then
      match dlookup kvs "lower", dlookup kvs "upper" with
      | some lv, some uv =>
        if isNumericPy lv && isNumericPy uv then
          let worker_id := toString run_id ++ "_" ++ toString target_id ++ "_" ++
            category ++ "_" ++ setting_key ++ "_" ++ toString constraint_idx
          let worker_hash := hash worker_id
          let shard_index : Nat := worker_hash % total_shards
          let lower := toRat lv
          let upper := toRat uv
          let delta := |upper - lower|
          let shard_size := delta / (total_shards : ℚ)
          let overlap : Int := ratTrunc (shard_size * (1/10))
          let new_lower := lower + shard_size * (shard_index : ℚ)
          let new_upper := lower + shard_size * ((shard_index : ℚ) + 1)
          let nl := pyMax lv (.float (new_lower - (overlap : ℚ)))
          let nu := pyMin uv (.float (new_upper + (overlap : ℚ)))
          .dict (setKey (setKey kvs "lower" nl) "upper" nu)
        else c
      | _, _ => c
    else c
  | _ => c

/-- Shard the constraints list of one parameter (`breeder_service.py`
lines 72-131): non-dict parameters, non-list or empty constraint
lists, and categorical parameters (first constraint has `values`) pass
through unchanged; otherwise every constraint is sharded by index. -/
def shardSettingValue (hash : String → Nat) (run_id target_id total_shards : Nat)
    (category setting_key : String) (v : PyVal) : PyVal :=
  match v with
  | .dict kvs =>
    match dlookup kvs "constraints" with
    | some (.list cs) =>
      match cs with
      | [] => .dict kvs
      | first :: _ =>
        match first with
        | .dict fkvs =>
          if hasKey fkvs "values" then .dict kvs
          else
            .dict (setKey kvs "constraints"
              (.list (cs.enum.map (fun ic =>
                shardConstraint hash run_id target_id total_shards category
                  setting_key ic.1 ic.2))))
        | _ => .dict kvs
    | some _ => .dict kvs
    | Option.none => .dict kvs
  | v => v

/-- Shard one settings category (a mapping from parameter name to
parameter).  Non-dict category values are passed through (Python would
raise on `.items()`; theorems assume `ShardWF`). -/
def shardCategory (hash : String → Nat) (run_id target_id total_shards : Nat)
    (category : String) (v : PyVal) : PyVal :=
  match v with
  | .dict params =>
      .dict (params.map (fun kv =>
        (kv.1, shardSettingValue hash run_id target_id total_shards category kv.1 kv.2)))
  | v => v

/-- `determine_config_shard` (`breeder_service.py` lines 49-133):
hash-based shard assignment over every integer-range constraint in
every supported settings category; everything else is copied through
unchanged.  `totalShards = targets_count * parallel_runs_count`; the
SHA-256 digest is the uninterpreted parameter `hash`. -/
def determine_config_shard (hash : String → Nat) (run_id target_id : Nat)
    (targets_count : Nat) (config : PyVal) (parallel_runs_count : Nat) : PyVal :=
  match config with
  | .dict kvs =>
    match dlookup kvs "settings" with
    | some (.dict settings) =>
      let total_shards := targets_count * parallel_runs_count
      .dict (setKey kvs "settings" (.dict (settings.map (fun kv =>
        if kv.1 ∈ supported_categories then
          (kv.1, shardCategory hash run_id target_id total_shards kv.1 kv.2)
        else kv))))
    | some _ => config
    | Option.none => config
  | config => config

/-! ### Navigation into a config and well-formedness -/

/-- Top-level section of a config dict. -/
def topGet (config : PyVal) (k : String) : Option PyVal :=
  match config with
  | .dict kvs => dlookup kvs k
  | _ => Option.none

/-- The parameter value at `settings.category.param`. -/
def getParam (config : PyVal) (category p : String) : Option PyVal :=
  match topGet config "settings" with
  | some (.dict settings) =>
    match dlookup settings category with
    | some (.dict params) => dlookup params p
    | _ => Option.none
  | _ => Option.none

/-- The constraints list of `settings.category.param`. -/
def getConstraints (config : PyVal) (category p : String) : Option (List PyVal) :=
  match getParam config category p with
  | some (.dict pkvs) =>
    match dlookup pkvs "constraints" with
    | some (.list cs) => some cs
    | _ => Option.none
  | _ => Option.none

/-- The `i`-th constraint of `settings.category.param`. -/
def getConstraint (config : PyVal) (category p : String) (i : Nat) : Option PyVal :=
  (getConstraints config category p).bind (fun cs => cs.get? i)

/-- A field of a constraint dict. -/
def constraintField (c : PyVal) (k : String) : Option PyVal :=
  match c with
  | .dict kvs => dlookup kvs k
  | _ => Option.none

/-- The parameter is categorical: its constraints list's first element
is a dict containing a `values` key (such parameters are never
sharded). -/
def IsCategoricalParam (v : PyVal) : Bool :=
  match v with
  | .dict kvs =>
    match dlookup kvs "constraints" with
    | some (.list (PyVal.dict fkvs :: _)) => hasKey fkvs "values"
    | _ => false
  | _ => false

/-- Constraint lists of a parameter are dicts throughout (anything else
can make the Python `'step' in constraint` / subscripting raise). -/
def constraintsWF (v : PyVal) : Bool :=
  match v with
  | .dict kvs =>
    match dlookup kvs "constraints" with
    | some (.list cs) => cs.all (fun c => match c with | .dict _ => true | _ => false)
    | _ => true
  | _ => true

/-- Well-formedness assumed by the shard theorems: the config is a
dict; `settings`, when present, is a dict; every supported category
present in it is a dict of parameters whose constraint lists contain
only dicts.  (On inputs outside this set the Python source can raise
`TypeError`/`AttributeError` instead of returning.) -/
def ShardWF (config : PyVal) : Bool :=
  match config with
  | .dict kvs =>
    match dlookup kvs "settings" with
    | some (.dict settings) =>
      settings.all (fun kv =>
        if kv.1 ∈ supported_categories then
          match kv.2 with
          | .dict params => params.all (fun p => constraintsWF p.2)
          | _ => false
        else true)
    | some _ => false
    | Option.none => true
  | _ => false

/-! ### Lemmas about the association-list operations -/

theorem dlookup_setKey_self (kvs : List (String × PyVal)) (k : String) (v : PyVal) :
    dlookup (setKey kvs k v) k = some v := by
  induction kvs with
  | nil => simp [setKey, dlookup]
  | cons kv rest ih =>
    by_cases h : kv.1 = k
    · simp [setKey, h, dlookup]
    · simp [setKey, h, dlookup, ih]

theorem dlookup_setKey_of_ne (kvs : List (String × PyVal)) (k k' : String) (v : PyVal)
    (h : k' ≠ k) : dlookup (setKey kvs k v) k' = dlookup kvs k' := by
  induction kvs with
  | nil => simp [setKey, dlookup, Ne.symm h]
  | cons kv rest ih =>
    by_cases hk : kv.1 = k
    · simp [setKey, hk, dlookup, Ne.symm h]
    · simp [setKey, hk, dlookup, ih]

theorem dlookup_map_keyed (f : String → PyVal → PyVal)
    (kvs : List (String × PyVal)) (k : String) :
    dlookup (kvs.map (fun kv => (kv.1, f kv.1 kv.2))) k = (dlookup kvs k).map (f k) := by
  induction kvs with
  | nil => simp [dlookup]
  | cons kv rest ih =>
    by_cases h : kv.1 = k
    · subst h; simp [dlookup]
    · simp [dlookup, h, ih]

theorem get?_enum_map {β : Type} (f : Nat → PyVal → β) (cs : List PyVal) (i : Nat) :
    (cs.enum.map (fun ic => f ic.1 ic.2)).get? i = (cs.get? i).map (f i) := by
  rw [List.get?_map, List.get?_enum]
  cases cs.get? i <;> rfl

/-! ### Arithmetic facts about one shard step -/

theorem toRat_pyMax (a b : PyVal) : toRat (pyMax a b) = max (toRat a) (toRat b) := by
  unfold pyMax
  by_cases h : toRat a < toRat b
  · simp [h, max_eq_right (le_of_lt h)]
  · simp [h, max_eq_left (not_lt.mp h)]

theorem toRat_pyMin (a b : PyVal) : toRat (pyMin a b) = min (toRat a) (toRat b) := by
  unfold pyMin
  by_cases h : toRat b < toRat a
  · simp [h, min_eq_right (le_of_lt h)]
  · simp [h, min_eq_left (not_lt.mp h)]

theorem toRat_float (q : ℚ) : toRat (.float q) = q := rfl

theorem pyMax_float_eq_left {a : PyVal} {q : ℚ} (h : q ≤ toRat a) :
    pyMax a (.float q) = a := by
  unfold pyMax
  rw [toRat_float, if_neg (not_lt.mpr h)]

theorem pyMin_float_eq_left {a : PyVal} {q : ℚ} (h : toRat a ≤ q) :
    pyMin a (.float q) = a := by
  unfold pyMin
  rw [toRat_float, if_neg (not_lt.mpr h)]

theorem ratTrunc_nonneg {q : ℚ} (h : 0 ≤ q) : 0 ≤ ratTrunc q := by
  unfold ratTrunc
  simp [h]
  exact Int.floor_nonneg.mpr h

/-- Core inequality of the sharder: the clamped overlap-widened
sub-range never inverts when `lower ≤ upper`. -/
theorem shard_arith (l u : ℚ) (total si : Nat) (htot : 0 < total) (hsi : si < total)
    (hlu : l ≤ u) :
    max l (l + (|u - l| / (total : ℚ)) * (si : ℚ)
        - ((ratTrunc ((|u - l| / (total : ℚ)) * (1/10)) : ℤ) : ℚ))
      ≤ min u (l + (|u - l| / (total : ℚ)) * ((si : ℚ) + 1)
        + ((ratTrunc ((|u - l| / (total : ℚ)) * (1/10)) : ℤ) : ℚ)) := by
  set delta := |u - l| with hdelta
  have hd : delta = u - l := abs_of_nonneg (by linarith)
  have htq : (0 : ℚ) < (total : ℚ) := by exact_mod_cast htot
  set ss := delta / (total : ℚ) with hss
  have hss0 : 0 ≤ ss := div_nonneg (by rw [hd]; linarith) (le_of_lt htq)
  have hov0 : (0 : ℚ) ≤ ((ratTrunc (ss * (1/10)) : ℤ) : ℚ) := by
    have := ratTrunc_nonneg (q := ss * (1/10)) (by positivity)
    exact_mod_cast this
  set ov : ℚ := ((ratTrunc (ss * (1/10)) : ℤ) : ℚ) with hov
  have hsstotal : ss * (total : ℚ) = delta := by
    rw [hss]; field_simp
  have hsi1 : ((si : ℚ) + 1) ≤ (total : ℚ) := by
    have : (si : ℚ) + 1 = ((si + 1 : Nat) : ℚ) := by push_cast; ring
    rw [this]
    exact_mod_cast hsi
  have hup : l + ss * ((si : ℚ) + 1) ≤ u := by
    have h1 : ss * ((si : ℚ) + 1) ≤ ss * (total : ℚ) :=
      mul_le_mul_of_nonneg_left hsi1 hss0
    rw [hsstotal, hd] at h1
    linarith
  have hsile : (si : ℚ) ≤ (si : ℚ) + 1 := by linarith
  have hlow : ss * (si : ℚ) ≤ ss * ((si : ℚ) + 1) :=
    mul_le_mul_of_nonneg_left hsile hss0
  apply max_le
  · apply le_min hlu
    nlinarith [mul_nonneg hss0 (show (0:ℚ) ≤ (si : ℚ) + 1 by positivity)]
  · apply le_min
    · linarith
    · linarith

/-- What `shardConstraint` does to a constraint where the shard branch
fires: the bounds are replaced by the clamped sub-range, everything
else is preserved.  Gives the Boundedness (C1), non-inversion (C9) and
exact single-shard collapse (C2) facts at once. -/
theorem shardConstraint_spec (hash : String → Nat) (run_id target_id total : Nat)
    (category setting_key : String) (i : Nat) (kvs : List (String × PyVal))
    (lv uv : PyVal) (htot : 0 < total)
    (hs : hasKey kvs "step" = true)
    (hl : dlookup kvs "lower" = some lv) (hu : dlookup kvs "upper" = some uv)
    (hln : isNumericPy lv = true) (hun : isNumericPy uv = true) :
    ∃ nl nu,
      shardConstraint hash run_id target_id total category setting_key i (.dict kvs)
        = .dict (setKey (setKey kvs "lower" nl) "upper" nu)
      ∧ toRat lv ≤ toRat nl ∧ toRat nu ≤ toRat uv
      ∧ (toRat lv ≤ toRat uv → toRat nl ≤ toRat nu)
      ∧ (total = 1 → nl = lv ∧ nu = uv) := by
  have hkl : hasKey kvs "lower" = true := by simp [hasKey, hl]
  have hku : hasKey kvs "upper" = true := by simp [hasKey, hu]
  have hfire : shardConstraint hash run_id target_id total category setting_key i
      (.dict kvs) = .dict (setKey (setKey kvs "lower"
        (pyMax lv (.float (toRat lv
          + (|toRat uv - toRat lv| / (total : ℚ))
            * ((hash (toString run_id ++ "_" ++ toString target_id ++ "_" ++ category
                ++ "_" ++ setting_key ++ "_" ++ toString i) % total : Nat) : ℚ)
          - ((ratTrunc ((|toRat uv - toRat lv| / (total : ℚ)) * (1/10)) : ℤ) : ℚ)))))
        "upper" (pyMin uv (.float (toRat lv
          + (|toRat uv - toRat lv| / (total : ℚ))
            * (((hash (toString run_id ++ "_" ++ toString target_id ++ "_" ++ category
                ++ "_" ++ setting_key ++ "_" ++ toString i) % total : Nat) : ℚ) + 1)
          + ((ratTrunc ((|toRat uv - toRat lv| / (total : ℚ)) * (1/10)) : ℤ) : ℚ))))) := by
    unfold shardConstraint
    simp [hs, hkl, hku, hl, hu, hln, hun]
  set si : Nat := hash (toString run_id ++ "_" ++ toString target_id ++ "_" ++ category
      ++ "_" ++ setting_key ++ "_" ++ toString i) % total with hsi
  refine ⟨_, _, hfire, ?_, ?_, ?_, ?_⟩
  · rw [toRat_pyMax]; exact le_max_left _ _
  · rw [toRat_pyMin]; exact min_le_left _ _
  · intro hord
    rw [toRat_pyMax, toRat_pyMin]
    exact shard_arith (toRat lv) (toRat uv) total si htot
      (Nat.mod_lt _ htot) hord
  · intro h1
    subst h1
    have hsi0 : si = 0 := by rw [hsi]; exact Nat.mod_one _
    have hov : (0 : ℚ) ≤ ((ratTrunc (|toRat uv - toRat lv| * (1/10)) : ℤ) : ℚ) := by
      have h0 : (0 : ℚ) ≤ |toRat uv - toRat lv| * (1/10) := by positivity
      exact_mod_cast ratTrunc_nonneg h0
    have habs : toRat uv - toRat lv ≤ |toRat uv - toRat lv| := le_abs_self _
    simp only [hsi0, Nat.cast_zero, Nat.cast_one, div_one, mul_zero, add_zero,
      sub_zero, zero_add, mul_one]
    constructor
    · exact pyMax_float_eq_left (by linarith)
    · exact pyMin_float_eq_left (by nlinarith [abs_nonneg (toRat uv - toRat lv)])

/-- `shardConstraint` never touches fields other than `lower` and
`upper` (in particular `step` is preserved). -/
theorem shardConstraint_field_frame (hash : String → Nat) (run_id target_id total : Nat)
    (category setting_key : String) (i : Nat) (c : PyVal) (k : String)
    (hk1 : k ≠ "lower") (hk2 : k ≠ "upper") :
    constraintField (shardConstraint hash run_id target_id total category setting_key i c) k
      = constraintField c k := by
  unfold shardConstraint
  repeat' split
  all_goals first
    | rfl
    | (subst_eqs
       simp [constraintField, dlookup_setKey_of_ne _ _ _ _ hk2,
         dlookup_setKey_of_ne _ _ _ _ hk1])

/-- Categorical parameters (first constraint has `values`) pass through
`shardSettingValue` unchanged. -/
theorem shardSettingValue_categorical (hash : String → Nat) (run_id target_id total : Nat)
    (category setting_key : String) (v : PyVal) (h : IsCategoricalParam v = true) :
    shardSettingValue hash run_id target_id total category setting_key v = v := by
  cases v with
  | dict kvs =>
    cases hcs : dlookup kvs "constraints" with
    | none => simp [IsCategoricalParam, hcs] at h
    | some cv =>
      cases cv with
      | list cs =>
        cases cs with
        | nil => simp [IsCategoricalParam, hcs] at h
        | cons first rest =>
          cases first with
          | dict fkvs =>
            have hv : hasKey fkvs "values" = true := by
              simpa [IsCategoricalParam, hcs] using h
            simp [shardSettingValue, hcs, hv]
          | str s => simp [IsCategoricalParam, hcs] at h
          | int n => simp [IsCategoricalParam, hcs] at h
          | float q => simp [IsCategoricalParam, hcs] at h
          | bool b => simp [IsCategoricalParam, hcs] at h
          | none => simp [IsCategoricalParam, hcs] at h
          | list xs => simp [IsCategoricalParam, hcs] at h
      | dict d => simp [IsCategoricalParam, hcs] at h
      | str s => simp [IsCategoricalParam, hcs] at h
      | int n => simp [IsCategoricalParam, hcs] at h
      | float q => simp [IsCategoricalParam, hcs] at h
      | bool b => simp [IsCategoricalParam, hcs] at h
      | none => simp [IsCategoricalParam, hcs] at h
  | str s => simp [IsCategoricalParam] at h
  | int n => simp [IsCategoricalParam] at h
  | float q => simp [IsCategoricalParam] at h
  | bool b => simp [IsCategoricalParam] at h
  | none => simp [IsCategoricalParam] at h
  | list xs => simp [IsCategoricalParam] at h

theorem shardCategory_dict (hash : String → Nat) (run_id target_id total : Nat)
    (category : String) (params : List (String × PyVal)) :
    shardCategory hash run_id target_id total category (.dict params)
      = .dict (params.map (fun kv =>
          (kv.1, shardSettingValue hash run_id target_id total category kv.1 kv.2))) := rfl

/-- The sharded config's parameter at `settings.cat.p` is the input's
parameter transformed by `shardSettingValue` (with
`totalShards = targets_count * parallel_runs_count`). -/
theorem getParam_shard (hash : String → Nat) (run_id target_id targets_count
    parallel_runs_count : Nat) (config : PyVal) (cat p : String)
    (hcat : cat ∈ supported_categories) :
    getParam (determine_config_shard hash run_id target_id targets_count config
      parallel_runs_count) cat p
      = (getParam config cat p).map
          (shardSettingValue hash run_id target_id
            (targets_count * parallel_runs_count) cat p) := by
  cases config with
  | dict kvs =>
    cases hset : dlookup kvs "settings" with
    | none => simp [determine_config_shard, getParam, topGet, hset]
    | some sv =>
      cases sv with
      | dict settings =>
        have hfun : (fun kv : String × PyVal =>
            if kv.1 ∈ supported_categories then
              (kv.1, shardCategory hash run_id target_id
                (targets_count * parallel_runs_count) kv.1 kv.2)
            else kv)
            = fun kv : String × PyVal => (kv.1,
              if kv.1 ∈ supported_categories then
                shardCategory hash run_id target_id
                  (targets_count * parallel_runs_count) kv.1 kv.2
              else kv.2) := by
          funext kv
          by_cases hm : kv.1 ∈ supported_categories
          · simp [hm]
          · simp [hm]
        have hout : determine_config_shard hash run_id target_id targets_count
            (.dict kvs) parallel_runs_count
            = .dict (setKey kvs "settings" (.dict (settings.map
              (fun kv : String × PyVal => (kv.1,
                if kv.1 ∈ supported_categories then
                  shardCategory hash run_id target_id
                    (targets_count * parallel_runs_count) kv.1 kv.2
                else kv.2))))) := by
          simp only [determine_config_shard, hset, hfun]
        rw [hout]
        simp only [getParam, topGet, dlookup_setKey_self, hset]
        rw [dlookup_map_keyed (fun k v => if k ∈ supported_categories then
          shardCategory hash run_id target_id
            (targets_count * parallel_runs_count) k v else v) settings cat]
        cases hv : dlookup settings cat with
        | none => rfl
        | some v =>
          cases v with
          | dict params =>
            simp [if_pos hcat, shardCategory_dict,
              dlookup_map_keyed (fun q w => shardSettingValue hash run_id target_id
                (targets_count * parallel_runs_count) cat q w) params p]
          | str s => simp [if_pos hcat, shardCategory]
          | int n => simp [if_pos hcat, shardCategory]
          | float q => simp [if_pos hcat, shardCategory]
          | bool b => simp [if_pos hcat, shardCategory]
          | none => simp [if_pos hcat, shardCategory]
          | list xs => simp [if_pos hcat, shardCategory]
      | str s => simp [determine_config_shard, getParam, topGet, hset]
      | int n => simp [determine_config_shard, getParam, topGet, hset]
      | float q => simp [determine_config_shard, getParam, topGet, hset]
      | bool b => simp [determine_config_shard, getParam, topGet, hset]
      | none => simp [determine_config_shard, getParam, topGet, hset]
      | list xs => simp [determine_config_shard, getParam, topGet, hset]
  | str s => rfl
  | int n => rfl
  | float q => rfl
  | bool b => rfl
  | none => rfl
  | list xs => rfl

/-- Each constraint position of the sharded config holds either the
original constraint (skipped parameter) or its `shardConstraint`
image. -/
theorem getConstraint_shard (hash : String → Nat) (run_id target_id targets_count
    parallel_runs_count : Nat) (config : PyVal) (cat p : String) (i : Nat) (c : PyVal)
    (hcat : cat ∈ supported_categories)
    (hc : getConstraint config cat p i = some c) :
    getConstraint (determine_config_shard hash run_id target_id targets_count config
        parallel_runs_count) cat p i = some c
    ∨ getConstraint (determine_config_shard hash run_id target_id targets_count config
        parallel_runs_count) cat p i
      = some (shardConstraint hash run_id target_id
          (targets_count * parallel_runs_count) cat p i c) := by
  unfold getConstraint getConstraints at hc ⊢
  rw [getParam_shard hash run_id target_id targets_count parallel_runs_count config
    cat p hcat]
  cases hp : getParam config cat p with
  | none => rw [hp] at hc; simp at hc
  | some v =>
    rw [hp] at hc
    simp only [Option.map_some']
    cases v with
    | dict pkvs =>
      cases hcs : dlookup pkvs "constraints" with
      | none => simp [hcs] at hc
      | some cv =>
        simp only [hcs] at hc
        cases cv with
        | list cs =>
          simp only [Option.some_bind] at hc
          cases cs with
          | nil => simp at hc
          | cons first rest =>
            cases first with
            | dict fkvs =>
              by_cases hv : hasKey fkvs "values" = true
              · left
                have hsv : shardSettingValue hash run_id target_id
                    (targets_count * parallel_runs_count) cat p (.dict pkvs)
                    = .dict pkvs := by
                  simp [shardSettingValue, hcs, hv]
                rw [hsv]
                simpa [hcs] using hc
              · right
                have hsv : shardSettingValue hash run_id target_id
                    (targets_count * parallel_runs_count) cat p (.dict pkvs)
                    = .dict (setKey pkvs "constraints"
                        (.list (((PyVal.dict fkvs) :: rest).enum.map (fun ic =>
                          shardConstraint hash run_id target_id
                            (targets_count * parallel_runs_count) cat p ic.1 ic.2)))) := by
                  simp [shardSettingValue, hcs, hv]
                rw [hsv]
                simp only [dlookup_setKey_self, Option.some_bind]
                rw [get?_enum_map (fun j cj => shardConstraint hash run_id target_id
                  (targets_count * parallel_runs_count) cat p j cj)
                  ((PyVal.dict fkvs) :: rest) i, hc]
                rfl
            | str s =>
              left
              have hsv : shardSettingValue hash run_id target_id
                  (targets_count * parallel_runs_count) cat p (.dict pkvs)
                  = .dict pkvs := by
                simp [shardSettingValue, hcs]
              rw [hsv]
              simpa [hcs] using hc
            | int n =>
              left
              have hsv : shardSettingValue hash run_id target_id
                  (targets_count * parallel_runs_count) cat p (.dict pkvs)
                  = .dict pkvs := by
                simp [shardSettingValue, hcs]
              rw [hsv]
              simpa [hcs] using hc
            | float q =>
              left
              have hsv : shardSettingValue hash run_id target_id
                  (targets_count * parallel_runs_count) cat p (.dict pkvs)
                  = .dict pkvs := by
                simp [shardSettingValue, hcs]
              rw [hsv]
              simpa [hcs] using hc
            | bool b =>
              left
              have hsv : shardSettingValue hash run_id target_id
                  (targets_count * parallel_runs_count) cat p (.dict pkvs)
                  = .dict pkvs := by
                simp [shardSettingValue, hcs]
              rw [hsv]
              simpa [hcs] using hc
            | none =>
              left
              have hsv : shardSettingValue hash run_id target_id
                  (targets_count * parallel_runs_count) cat p (.dict pkvs)
                  = .dict pkvs := by
                simp [shardSettingValue, hcs]
              rw [hsv]
              simpa [hcs] using hc
            | list xs =>
              left
              have hsv : shardSettingValue hash run_id target_id
                  (targets_count * parallel_runs_count) cat p (.dict pkvs)
                  = .dict pkvs := by
                simp [shardSettingValue, hcs]
              rw [hsv]
              simpa [hcs] using hc
        | dict d => simp [hcs] at hc
        | str s => simp [hcs] at hc
        | int n => simp [hcs] at hc
        | float q => simp [hcs] at hc
        | bool b => simp [hcs] at hc
        | none => simp [hcs] at hc
    | str s => simp at hc
    | int n => simp at hc
    | float q => simp at hc
    | bool b => simp at hc
    | none => simp at hc
    | list xs => simp at hc

/-! ## Claim theorems about the sharder -/

/-- A fixed hash oracle used by witnesses (theorems hold for every
`hash`, so any concrete choice will do). -/
def zeroHash : String → Nat := fun _ => 0

/-- A small valid campaign-definition fragment used by shard witnesses. -/
def shardCfg : PyVal :=
  .dict [("breeder", .dict [("type", .str "linux_performance")]),
    ("settings", .dict [("sysctl", .dict [
      ("p1", .dict [("constraints", .list [.dict
        [("step", .int 5), ("lower", .int 0), ("upper", .int 100)]])]),
      ("gov", .dict [("constraints", .list [.dict
        [("values", .list [.str "a", .str "b"])]])])])])]

/-- C1: Boundedness of sharding — for every campaign definition, worker
coordinates, and positive counts, every integer-range constraint
(numeric `lower < upper`) sharded by `determine_config_shard` ends up
with bounds `lower' `/`upper'` satisfying `lower ≤ lower'` and
`upper' ≤ upper`; in particular when `lower = 0` the clamped result is
never negative.  (Quantified over every possible SHA-256 digest via
`hash`.) -/
theorem C1_shard_boundedness (hash : String → Nat)
    (run_id target_id targets_count parallel_runs_count : Nat) (config : PyVal)
    (cat p : String) (i : Nat) (kvs : List (String × PyVal)) (lv uv : PyVal)
    (hwf : ShardWF config = true)
    (htc : 0 < targets_count) (hpc : 0 < parallel_runs_count)
    (hcat : cat ∈ supported_categories)
    (hc : getConstraint config cat p i = some (.dict kvs))
    (hstep : hasKey kvs "step" = true)
    (hl : dlookup kvs "lower" = some lv) (hu : dlookup kvs "upper" = some uv)
    (hln : isNumericPy lv = true) (hun : isNumericPy uv = true)
    (hlt : toRat lv < toRat uv) :
    ∃ c' nl nu,
      getConstraint (determine_config_shard hash run_id target_id targets_count config
        parallel_runs_count) cat p i = some c'
      ∧ constraintField c' "lower" = some nl
      ∧ constraintField c' "upper" = some nu
      ∧ toRat lv ≤ toRat nl ∧ toRat nu ≤ toRat uv
      ∧ (toRat lv = 0 → 0 ≤ toRat nl) := by
  have htot : 0 < targets_count * parallel_runs_count := Nat.mul_pos htc hpc
  rcases getConstraint_shard hash run_id target_id targets_count parallel_runs_count
    config cat p i (.dict kvs) hcat hc with h | h
  · refine ⟨.dict kvs, lv, uv, h, ?_, ?_, le_refl _, le_refl _, fun h0 => by rw [← h0]⟩
    · simpa [constraintField] using hl
    · simpa [constraintField] using hu
  · obtain ⟨nl, nu, heq, h1, h2, _, _⟩ := shardConstraint_spec hash run_id target_id
      (targets_count * parallel_runs_count) cat p i kvs lv uv htot hstep hl hu hln hun
    refine ⟨_, nl, nu, by rw [h, heq], ?_, ?_, h1, h2, fun h0 => by rw [← h0]; exact h1⟩
    · simp only [constraintField]
      rw [dlookup_setKey_of_ne _ _ _ _ (by decide), dlookup_setKey_self]
    · simp only [constraintField]
      rw [dlookup_setKey_self]

/-- C1 witness: a concrete sharded constraint (2×2 worker grid). -/
theorem C1_shard_boundedness_witness :
    ∃ c' nl nu,
      getConstraint (determine_config_shard zeroHash 0 0 2 shardCfg 2)
        "sysctl" "p1" 0 = some c'
      ∧ constraintField c' "lower" = some nl
      ∧ constraintField c' "upper" = some nu
      ∧ toRat (.int 0) ≤ toRat nl ∧ toRat nu ≤ toRat (.int 100)
      ∧ (toRat (.int 0) = 0 → 0 ≤ toRat nl) :=
  C1_shard_boundedness zeroHash 0 0 2 2 shardCfg "sysctl" "p1" 0
    [("step", .int 5), ("lower", .int 0), ("upper", .int 100)] (.int 0) (.int 100)
    (by decide) (by decide) (by decide) (by decide) rfl rfl rfl rfl rfl rfl
    (by norm_num [toRat])

/-- C2 (amended): single-shard collapse under exact rational
arithmetic — with `targetsCount = 1` and `parallelRunsCount = 1` (so
`totalShards = 1`), any integer-range constraint comes back with its
original bounds, for every possible hash value.  This exact collapse
is an idealization: under CPython's binary64 float arithmetic the
computed bounds can round and differ from the originals (see the C2
counterexample below), so the collapse holds only up to float
rounding — the bounds still stay within the original range (C1). -/
theorem C2_single_shard_collapse_exact (hash : String → Nat) (run_id target_id : Nat)
    (config : PyVal) (cat p : String) (i : Nat) (kvs : List (String × PyVal))
    (lv uv : PyVal)
    (hwf : ShardWF config = true)
    (hcat : cat ∈ supported_categories)
    (hc : getConstraint config cat p i = some (.dict kvs))
    (hstep : hasKey kvs "step" = true)
    (hl : dlookup kvs "lower" = some lv) (hu : dlookup kvs "upper" = some uv)
    (hln : isNumericPy lv = true) (hun : isNumericPy uv = true)
    (hlt : toRat lv < toRat uv) :
    ∃ c',
      getConstraint (determine_config_shard hash run_id target_id 1 config 1) cat p i
        = some c'
      ∧ constraintField c' "lower" = some lv
      ∧ constraintField c' "upper" = some uv := by
  rcases getConstraint_shard hash run_id target_id 1 1 config cat p i (.dict kvs)
    hcat hc with h | h
  · refine ⟨.dict kvs, h, ?_, ?_⟩
    · simpa [constraintField] using hl
    · simpa [constraintField] using hu
  · obtain ⟨nl, nu, heq, _, _, _, hone⟩ := shardConstraint_spec hash run_id target_id
      (1 * 1) cat p i kvs lv uv (by decide) hstep hl hu hln hun
    obtain ⟨hnl, hnu⟩ := hone rfl
    subst hnl
    subst hnu
    refine ⟨_, by rw [h, heq], ?_, ?_⟩
    · simp only [constraintField]
      rw [dlookup_setKey_of_ne _ _ _ _ (by decide), dlookup_setKey_self]
    · simp only [constraintField]
      rw [dlookup_setKey_self]

/-- C2 witness: the 1×1 grid returns the original `0..100` range. -/
theorem C2_single_shard_collapse_exact_witness :
    ∃ c',
      getConstraint (determine_config_shard zeroHash 0 0 1 shardCfg 1)
        "sysctl" "p1" 0 = some c'
      ∧ constraintField c' "lower" = some (.int 0)
      ∧ constraintField c' "upper" = some (.int 100) :=
  C2_single_shard_collapse_exact zeroHash 0 0 shardCfg "sysctl" "p1" 0
    [("step", .int 5), ("lower", .int 0), ("upper", .int 100)] (.int 0) (.int 100)
    (by decide) (by decide) rfl rfl rfl rfl rfl rfl (by norm_num [toRat])

/-- C9: sharded ranges are never inverted — under exact rational
arithmetic, for every integer-range constraint with `lower < upper`
and every positive `totalShards = targetsCount * parallelRunsCount`,
the produced bounds satisfy `lower' ≤ upper'`, even when the shard
size is zero or sub-unit. -/
theorem C9_shard_no_inversion (hash : String → Nat)
    (run_id target_id targets_count parallel_runs_count : Nat) (config : PyVal)
    (cat p : String) (i : Nat) (kvs : List (String × PyVal)) (lv uv : PyVal)
    (hwf : ShardWF config = true)
    (htot : 0 < targets_count * parallel_runs_count)
    (hcat : cat ∈ supported_categories)
    (hc : getConstraint config cat p i = some (.dict kvs))
    (hstep : hasKey kvs "step" = true)
    (hl : dlookup kvs "lower" = some lv) (hu : dlookup kvs "upper" = some uv)
    (hln : isNumericPy lv = true) (hun : isNumericPy uv = true)
    (hlt : toRat lv < toRat uv) :
    ∃ c' nl nu,
      getConstraint (determine_config_shard hash run_id target_id targets_count config
        parallel_runs_count) cat p i = some c'
      ∧ constraintField c' "lower" = some nl
      ∧ constraintField c' "upper" = some nu
      ∧ toRat nl ≤ toRat nu := by
  rcases getConstraint_shard hash run_id target_id targets_count parallel_runs_count
    config cat p i (.dict kvs) hcat hc with h | h
  · refine ⟨.dict kvs, lv, uv, h, ?_, ?_, le_of_lt hlt⟩
    · simpa [constraintField] using hl
    · simpa [constraintField] using hu
  · obtain ⟨nl, nu, heq, _, _, h3, _⟩ := shardConstraint_spec hash run_id target_id
      (targets_count * parallel_runs_count) cat p i kvs lv uv htot hstep hl hu hln hun
    refine ⟨_, nl, nu, by rw [h, heq], ?_, ?_, h3 (le_of_lt hlt)⟩
    · simp only [constraintField]
      rw [dlookup_setKey_of_ne _ _ _ _ (by decide), dlookup_setKey_self]
    · simp only [constraintField]
      rw [dlookup_setKey_self]

/-- C9 witness: 15 shards over the 3-wide range `0..2` (shard size
`2/15 < 1`, overlap 0) still yields a non-inverted range. -/
theorem C9_shard_no_inversion_witness :
    ∃ c' nl nu,
      getConstraint (determine_config_shard zeroHash 2 1 3
        (.dict [("settings", .dict [("sysfs", .dict [("q", .dict [("constraints",
          .list [.dict [("step", .int 1), ("lower", .int 0), ("upper", .int 2)]])])])])])
        5) "sysfs" "q" 0 = some c'
      ∧ constraintField c' "lower" = some nl
      ∧ constraintField c' "upper" = some nu
      ∧ toRat nl ≤ toRat nu :=
  C9_shard_no_inversion zeroHash 2 1 3 5
    (.dict [("settings", .dict [("sysfs", .dict [("q", .dict [("constraints",
      .list [.dict [("step", .int 1), ("lower", .int 0), ("upper", .int 2)]])])])])])
    "sysfs" "q" 0
    [("step", .int 1), ("lower", .int 0), ("upper", .int 2)] (.int 0) (.int 2)
    (by decide) (by decide) (by decide) rfl rfl rfl rfl rfl rfl (by norm_num [toRat])

/-- C3: sharding frame property — `determine_config_shard` leaves every
top-level section other than `settings` unchanged, returns categorical
parameters (first constraint has `values`) byte-for-byte unchanged,
and replaces only `lower`/`upper` inside the constraints it shards
(every other constraint field, in particular `step`, is preserved). -/
theorem C3_shard_frame (hash : String → Nat)
    (run_id target_id targets_count parallel_runs_count : Nat) (config : PyVal)
    (hwf : ShardWF config = true)
    (htc : 0 < targets_count) (hpc : 0 < parallel_runs_count) :
    (∀ k, k ≠ "settings" →
      topGet (determine_config_shard hash run_id target_id targets_count config
        parallel_runs_count) k = topGet config k)
    ∧ (∀ cat p v, cat ∈ supported_categories → getParam config cat p = some v →
        IsCategoricalParam v = true →
        getParam (determine_config_shard hash run_id target_id targets_count config
          parallel_runs_count) cat p = some v)
    ∧ (∀ cat p i c, cat ∈ supported_categories → getConstraint config cat p i = some c →
        ∃ c', getConstraint (determine_config_shard hash run_id target_id targets_count
            config parallel_runs_count) cat p i = some c'
          ∧ ∀ k, k ≠ "lower" → k ≠ "upper" →
              constraintField c' k = constraintField c k) := by
  refine ⟨?_, ?_, ?_⟩
  · intro k hk
    cases config with
    | dict kvs =>
      cases hset : dlookup kvs "settings" with
      | none => simp [determine_config_shard, hset]
      | some sv =>
        cases sv with
        | dict settings =>
          simp only [determine_config_shard, hset]
          simp [topGet, dlookup_setKey_of_ne _ _ _ _ hk]
        | str s => simp [determine_config_shard, hset]
        | int n => simp [determine_config_shard, hset]
        | float q => simp [determine_config_shard, hset]
        | bool b => simp [determine_config_shard, hset]
        | none => simp [determine_config_shard, hset]
        | list xs => simp [determine_config_shard, hset]
    | str s => rfl
    | int n => rfl
    | float q => rfl
    | bool b => rfl
    | none => rfl
    | list xs => rfl
  · intro cat p v hcat hp hcatg
    rw [getParam_shard hash run_id target_id targets_count parallel_runs_count config
      cat p hcat, hp, Option.map_some',
      shardSettingValue_categorical _ _ _ _ _ _ _ hcatg]
  · intro cat p i c hcat hc
    rcases getConstraint_shard hash run_id target_id targets_count parallel_runs_count
      config cat p i c hcat hc with h | h
    · exact ⟨c, h, fun k _ _ => rfl⟩
    · exact ⟨_, h, fun k hk1 hk2 => shardConstraint_field_frame hash run_id target_id
        (targets_count * parallel_runs_count) cat p i c k hk1 hk2⟩

/-- C3 witness: on a concrete config, the `breeder` section, a
categorical parameter, and the `step` field of a sharded constraint
all survive sharding untouched. -/
theorem C3_shard_frame_witness :
    topGet (determine_config_shard zeroHash 0 1 2 shardCfg 3) "breeder"
      = topGet shardCfg "breeder"
    ∧ getParam (determine_config_shard zeroHash 0 1 2 shardCfg 3) "sysctl" "gov"
      = some (.dict [("constraints", .list [.dict
          [("values", .list [.str "a", .str "b"])]])])
    ∧ ∃ c', getConstraint (determine_config_shard zeroHash 0 1 2 shardCfg 3)
          "sysctl" "p1" 0 = some c'
        ∧ constraintField c' "step" = some (.int 5) := by
  obtain ⟨h1, h2, h3⟩ := C3_shard_frame zeroHash 0 1 2 3 shardCfg
    (by decide) (by decide) (by decide)
  refine ⟨h1 "breeder" (by decide), h2 "sysctl" "gov" _ (by decide) rfl (by decide), ?_⟩
  obtain ⟨c', hc', hf⟩ := h3 "sysctl" "p1" 0
    (.dict [("step", .int 5), ("lower", .int 0), ("upper", .int 100)]) (by decide) rfl
  exact ⟨c', hc', by rw [hf "step" (by decide) (by decide)]; rfl⟩

/-! ## The validator (`config.py`)

`validate_minimal` aggregates all discoverable violations into one
list and raises one numbered message.  The embedding computes the
error list (`validation_errors`) in exactly the source's append order;
`validate_minimal` then mirrors the final raise.  The helper
validators (`validate_constraints_v03`, `validate_guardrails_v03`,
`validate_rollback_strategies_v03`) raise on the first violation;
their embeddings return the first failing check in source order.
Python `TypeError`/`AttributeError` crash paths on grossly malformed
input are totalized; theorems assume `ValidateSafe`, which excludes
exactly those inputs. -/

/-- Python `v == "s"`: only a `str` with equal content compares equal
to a string literal. -/
def pyEqStr (v : PyVal) (s : String) : Bool :=
  match v with
  | .str t => t = s
  | _ => false

/-- Python `int(v)` view of an int-typed value (bools are 0/1). -/
def toInt : PyVal → Int
  | .int n => n
  | .bool b => if b then 1 else 0
  | _ => 0

/-- First `some` among a list of sequential checks (mirrors the first
`raise` in a Python validator body). -/
def firstSome (checks : List (Option String)) : Option String :=
  checks.findSome? id

/-- The fields of `required` missing from `kvs`, in `required` order
(mirrors `[f for f in required if f not in d]`). -/
def requiredMissing (kvs : List (String × PyVal)) (required : List String) : List String :=
  required.filter (fun f => !hasKey kvs f)

/-- Python `repr` of a list of strings, as interpolated into messages
(e.g. `['ssh']`). -/
def pyListReprStr (xs : List String) : String :=
  "[" ++ String.intercalate ", " (xs.map (fun s => "'" ++ s ++ "'")) ++ "]"

/-- Insertion sort on strings (Python `sorted` on distinct dict keys). -/
def insertSorted (s : String) : List String → List String
  | [] => [s]
  | t :: rest => if s ≤ t then s :: t :: rest else t :: insertSorted s rest

def sortStrings : List String → List String
  | [] => []
  | s :: rest => insertSorted s (sortStrings rest)

/-- The validator message for an empty/missing objectives array. -/
def msgObjectivesEmpty : String :=
  "Missing or empty objectives array. Example: objectives: [\x7bname: 'latency', goal: 'MINIMIZE', reconnaissance: \x7b...\x7d\x7d]"

/-- The validator message for an SSH target without an `address`. -/
def msgMissingAddress (idx : Nat) : String :=
  "Target " ++ toString idx ++
    ": Missing required field 'address' for SSH target. Example: address: '192.168.1.10'"

/-- The validator message for an inverted integer range. -/
def msgInvertedRange (param_name : String) (i : Nat) (lowv upv : PyVal) : String :=
  "Parameter '" ++ param_name ++ "': constraint " ++ toString i ++ ": 'lower' (" ++
    pyStr lowv ++ ") must be less than 'upper' (" ++ pyStr upv ++ ")"

/-- `BreederConfig.validate_constraints_v03` (`config.py` lines
37-149): checks the constraints list of one parameter and returns its
kind (`"categorical"` or `"int"`), or the first violation.  The
categorical branch inspects only element 0 of the list. -/
def validate_constraints_v03 (constraints_list : PyVal) (param_name : String) :
    Except String String :=
  match constraints_list with
  | .list cs =>
    match cs with
    | [] => .error ("Parameter '" ++ param_name ++ "': constraints list cannot be empty")
    | first :: _ =>
      match first with
      | .dict fkvs =>
        match dlookup fkvs "values" with
        | some values =>
          match values with
          | .list vs =>
            if vs.length < 2 then
              .error ("Parameter '" ++ param_name ++
                "': 'values' must have at least 2 items, got " ++ toString vs.length)
            else
              match vs.enum.findSome? (fun iv =>
                  match iv.2 with
                  | .str _ => Option.none
                  | v => some ("Parameter '" ++ param_name ++
                      "': all values must be strings, item " ++ toString iv.1 ++
                      " is " ++ pyTypeName v)) with
              | some e => .error e
              | Option.none => .ok "categorical"
          | v => .error ("Parameter '" ++ param_name ++ "': 'values' must be a list, got "
              ++ pyTypeName v)
        | Option.none =>
          if hasKey fkvs "step" || hasKey fkvs "lower" || hasKey fkvs "upper" then
            match cs.enum.findSome? (fun ic =>
                match ic.2 with
                | .dict ckvs =>
                  let missing := requiredMissing ckvs ["step", "lower", "upper"]
                  if !missing.isEmpty then
                    some ("Parameter '" ++ param_name ++ "': constraint " ++
                      toString ic.1 ++ ": missing required fields: " ++
                      String.intercalate ", " missing)
                  else
                    match dlookup ckvs "step", dlookup ckvs "lower",
                        dlookup ckvs "upper" with
                    | some stepv, some lowv, some upv =>
                      if !isNumericPy stepv then
                        some ("Parameter '" ++ param_name ++ "': constraint " ++
                          toString ic.1 ++ ": 'step' must be numeric, got " ++
                          pyTypeName stepv)
                      else if !isNumericPy lowv then
                        some ("Parameter '" ++ param_name ++ "': constraint " ++
                          toString ic.1 ++ ": 'lower' must be numeric, got " ++
                          pyTypeName lowv)
                      else if !isNumericPy upv then
                        some ("Parameter '" ++ param_name ++ "': constraint " ++
                          toString ic.1 ++ ": 'upper' must be numeric, got " ++
                          pyTypeName upv)
                      else if toRat upv ≤ toRat lowv then
                        some (msgInvertedRange param_name ic.1 lowv upv)
                      else if toRat stepv ≤ 0 then
                        some ("Parameter '" ++ param_name ++ "': constraint " ++
                          toString ic.1 ++ ": 'step' must be positive, got " ++
                          pyStr stepv)
                      else Option.none
                    | _, _, _ => Option.none
                | c => some ("Parameter '" ++ param_name ++ "': constraint " ++
                    toString ic.1 ++ ": must be a dict, got " ++ pyTypeName c)) with
            | some e => .error e
            | Option.none => .ok "int"
          else
            .error ("Parameter '" ++ param_name ++
              "': constraint must have either 'values' (categorical) or 'step/lower/upper' (integer range)")
      | v => .error ("Parameter '" ++ param_name ++ "': each constraint must be a dict, got "
          ++ pyTypeName v)
  | v => .error ("Parameter '" ++ param_name ++ "': constraints must be a list, got "
      ++ pyTypeName v)

/-- One guardrail's checks, first failure in source order
(`config.py` lines 172-246). -/
def checkGuardrail (idx : Nat) (g : PyVal) : Option String :=
  match g with
  | .dict gkvs =>
    let name := match dlookup gkvs "name" with
      | some (.str s) => s
      | _ => ""
    firstSome [
      (match dlookup gkvs "name" with
       | Option.none => some ("Guardrail " ++ toString idx ++ ": missing required field 'name'")
       | some _ => Option.none),
      (match dlookup gkvs "name" with
       | some (.str s) =>
         if stripIsEmpty s then
           some ("Guardrail " ++ toString idx ++ ": 'name' must be a non-empty string")
         else Option.none
       | some _ => some ("Guardrail " ++ toString idx ++ ": 'name' must be a non-empty string")
       | Option.none => Option.none),
      (match dlookup gkvs "hard_limit" with
       | Option.none => some ("Guardrail " ++ toString idx ++ " (" ++ name ++
           "): missing required field 'hard_limit'")
       | some hl =>
         if !isNumericPy hl then
           some ("Guardrail " ++ toString idx ++ " (" ++ name ++
             "): 'hard_limit' must be numeric, got " ++ pyTypeName hl)
         else Option.none),
      (match dlookup gkvs "reconnaissance" with
       | Option.none => some ("Guardrail " ++ toString idx ++ " (" ++ name ++
           "): missing required section 'reconnaissance'")
       | some recon =>
         match recon with
         | .dict rkvs =>
           firstSome [
             (let missing := requiredMissing rkvs ["service", "query"]
              if !missing.isEmpty then
                some ("Guardrail " ++ toString idx ++ " (" ++ name ++
                  "): 'reconnaissance' missing required fields: " ++
                  String.intercalate ", " missing)
              else Option.none),
             (match dlookup rkvs "service" with
              | some sv =>
                if pyEqStr sv "prometheus" then Option.none
                else some ("Guardrail " ++ toString idx ++ " (" ++ name ++
                  "): service '" ++ pyStr sv ++ "' not supported. Valid services: prometheus")
              | Option.none => Option.none),
             (match dlookup rkvs "query" with
              | some (.str s) =>
                if stripIsEmpty s then
                  some ("Guardrail " ++ toString idx ++ " (" ++ name ++
                    "): 'query' must be a non-empty string")
                else Option.none
              | some _ => some ("Guardrail " ++ toString idx ++ " (" ++ name ++
                  "): 'query' must be a non-empty string")
              | Option.none => Option.none),
             (match dlookup rkvs "stabilization_seconds" with
              | some v =>
                if isIntPy v && 0 ≤ toInt v then Option.none
                else some ("Guardrail " ++ toString idx ++ " (" ++ name ++
                  "): 'stabilization_seconds' must be a non-negative integer")
              | Option.none => Option.none),
             (match dlookup rkvs "samples" with
              | some v =>
                if isIntPy v && 1 ≤ toInt v then Option.none
                else some ("Guardrail " ++ toString idx ++ " (" ++ name ++
                  "): 'samples' must be an integer >= 1")
              | Option.none => Option.none),
             (match dlookup rkvs "interval" with
              | some v =>
                if isIntPy v && 1 ≤ toInt v then Option.none
                else some ("Guardrail " ++ toString idx ++ " (" ++ name ++
                  "): 'interval' must be an integer >= 1")
              | Option.none => Option.none)]
         | _ => some ("Guardrail " ++ toString idx ++ " (" ++ name ++
             "): 'reconnaissance' must be a dict, got " ++ pyTypeName recon))]
  | g => some ("Guardrail " ++ toString idx ++ ": must be a dict, got " ++ pyTypeName g)

/-- `BreederConfig.validate_guardrails_v03` (`config.py` lines
151-246): optional section; raises on the first invalid guardrail. -/
def validate_guardrails_v03 (breeder_config : PyVal) : Except String Unit :=
  match breeder_config.get? "guardrails" with
  | Option.none => .ok ()
  | some gs =>
    match gs with
    | .list gl =>
      match gl.enum.findSome? (fun ig => checkGuardrail ig.1 ig.2) with
      | some e => .error e
      | Option.none => .ok ()
    | v => .error ("'guardrails' must be a list, got " ++ pyTypeName v)

/-- One rollback strategy's checks, first failure in source order
(`config.py` lines 272-349). -/
def checkStrategy (sname : String) (s : PyVal) : Option String :=
  match s with
  | .dict skvs =>
    firstSome [
      (let missing := requiredMissing skvs ["consecutive_failures", "target_state",
          "max_attempts", "on_failure", "timeout_seconds", "after"]
       if !missing.isEmpty then
         some ("Rollback strategy '" ++ sname ++ "': missing required fields: " ++
           String.intercalate ", " missing)
       else Option.none),
      (match dlookup skvs "consecutive_failures" with
       | some v =>
         if isIntPy v && 1 ≤ toInt v then Option.none
         else some ("Rollback strategy '" ++ sname ++
           "': 'consecutive_failures' must be an integer >= 1")
       | Option.none => Option.none),
      (match dlookup skvs "target_state" with
       | some v =>
         if ["previous", "best", "baseline"].any (fun t => pyEqStr v t) then Option.none
         else some ("Rollback strategy '" ++ sname ++
           "': 'target_state' must be one of ['previous', 'best', 'baseline'], got '" ++
           pyStr v ++ "'")
       | Option.none => Option.none),
      (match dlookup skvs "max_attempts" with
       | some v =>
         if isIntPy v && 1 ≤ toInt v then Option.none
         else some ("Rollback strategy '" ++ sname ++
           "': 'max_attempts' must be an integer >= 1")
       | Option.none => Option.none),
      (match dlookup skvs "on_failure" with
       | some v =>
         if ["stop", "continue", "skip_target"].any (fun t => pyEqStr v t) then Option.none
         else some ("Rollback strategy '" ++ sname ++
           "': 'on_failure' must be one of ['stop', 'continue', 'skip_target'], got '" ++
           pyStr v ++ "'")
       | Option.none => Option.none),
      (match dlookup skvs "timeout_seconds" with
       | some v =>
         if isIntPy v && 1 ≤ toInt v then Option.none
         else some ("Rollback strategy '" ++ sname ++
           "': 'timeout_seconds' must be an integer >= 1")
       | Option.none => Option.none),
      (match dlookup skvs "after" with
       | some a =>
         match a with
         | .dict akvs =>
           firstSome [
             (if hasKey akvs "action" then Option.none
              else some ("Rollback strategy '" ++ sname ++
                "': 'after' section missing required field 'action'")),
             (match dlookup akvs "action" with
              | some av =>
                if ["pause", "continue", "stop"].any (fun t => pyEqStr av t) then Option.none
                else some ("Rollback strategy '" ++ sname ++
                  "': 'after.action' must be one of ['pause', 'continue', 'stop'], got '" ++
                  pyStr av ++ "'")
              | Option.none => Option.none),
             (match dlookup akvs "action" with
              | some av =>
                if pyEqStr av "pause" then
                  match dlookup akvs "duration" with
                  | Option.none => some ("Rollback strategy '" ++ sname ++
                      "': 'after.duration' is required when 'after.action' is 'pause'")
                  | some dv =>
                    if isIntPy dv && 1 ≤ toInt dv then Option.none
                    else some ("Rollback strategy '" ++ sname ++
                      "': 'after.duration' must be an integer >= 1")
                else Option.none
              | Option.none => Option.none)]
         | _ => some ("Rollback strategy '" ++ sname ++ "': 'after' must be a dict, got "
             ++ pyTypeName a)
       | Option.none => Option.none)]
  | s => some ("Rollback strategy '" ++ sname ++ "': must be a dict, got " ++ pyTypeName s)

/-- The strategy-reference check for one target (`config.py` lines
355-368). -/
def checkTargetRollback (names : List String) (idx : Nat) (t : PyVal) : Option String :=
  match t with
  | .dict tkvs =>
    match dlookup tkvs "rollback" with
    | some rb =>
      if pyFalsy (rb.getD "enabled" (.bool false)) then Option.none
      else
        match rb with
        | .dict rkvs =>
          match dlookup rkvs "strategy" with
          | Option.none => some ("Target " ++ toString idx ++
              ": rollback.enabled=true but 'rollback.strategy' is not specified")
          | some sref =>
            if names.any (fun n => pyEqStr sref n) then Option.none
            else some ("Target " ++ toString idx ++
              ": references undefined rollback strategy '" ++ pyStr sref ++
              "'. Available strategies: " ++
              (if names.isEmpty then "none"
               else String.intercalate ", " (sortStrings names)))
        | _ => Option.none
    | Option.none => Option.none
  | _ => Option.none

/-- `BreederConfig.validate_rollback_strategies_v03` (`config.py`
lines 248-368): optional section; validates every strategy then every
target's strategy reference, raising on the first violation. -/
def validate_rollback_strategies_v03 (breeder_config : PyVal) : Except String Unit :=
  match breeder_config.get? "rollback_strategies" with
  | Option.none => .ok ()
  | some st =>
    match st with
    | .dict strategies =>
      match strategies.findSome? (fun kv => checkStrategy kv.1 kv.2) with
      | some e => .error e
      | Option.none =>
        let strategy_names := strategies.map (fun kv => kv.1)
        match breeder_config.get? "effectuation" with
        | some (.dict ekvs) =>
          match dlookup ekvs "targets" with
          | some (.list targets) =>
            match targets.enum.findSome? (fun it =>
                checkTargetRollback strategy_names it.1 it.2) with
            | some e => .error e
            | Option.none => .ok ()
          | _ => .ok ()
        | _ => .ok ()
    | v => .error ("'rollback_strategies' must be a dict, got " ++ pyTypeName v)

/-- Per-parameter settings errors (`config.py` lines 454-482). -/
def paramErrs (cat p : String) (pc : PyVal) : List String :=
  if stripIsEmpty p then
    ["settings." ++ cat ++ ": parameter name cannot be empty or whitespace"]
  else
    match pc with
    | .dict pkvs =>
      match dlookup pkvs "constraints" with
      | Option.none =>
        ["settings." ++ cat ++ "." ++ p ++
          ": missing 'constraints' field. Example: constraints: [\x7bstep: 100, lower: 4096, upper: 131072\x7d]"]
      | some cv =>
        match validate_constraints_v03 cv (cat ++ "." ++ p) with
        | .error e => [e]
        | .ok _ => []
    | _ => ["settings." ++ cat ++ "." ++ p ++ ": must be a dict, got " ++ pyTypeName pc]

/-- Per-category settings errors (`config.py` lines 445-482). -/
def categoryErrs (settingsKvs : List (String × PyVal)) (cat : String) : List String :=
  match dlookup settingsKvs cat with
  | Option.none => []
  | some v =>
    match v with
    | .dict params => params.flatMap (fun kv => paramErrs cat kv.1 kv.2)
    | _ => ["settings." ++ cat ++ " must be a dict, got " ++ pyTypeName v]

/-- Per-target type/SSH-field errors (`config.py` lines 510-562);
only reached when the breeder type is in `BREEDER_CAPABILITIES`. -/
def targetFieldErrsFor (breeder_type : String) (supported : List String) (idx : Nat)
    (t : PyVal) : List String :=
  match t with
  | .dict tkvs =>
    let tt := PyVal.getD (.dict tkvs) "type" .none
    let typeErrs :=
      if pyFalsy tt then
        ["Target " ++ toString idx ++ ": Missing required 'type' field. Example: type: 'ssh'"]
      else if supported.any (fun s => pyEqStr tt s) then []
      else
        ["Target " ++ toString idx ++ " (" ++
          pyStr (PyVal.getD (.dict tkvs) "address" (.str "unknown")) ++ "): Type '" ++
          pyStr tt ++ "' not supported by breeder '" ++ breeder_type ++
          "'. Supported types: " ++ pyListReprStr supported]
    let sshErrs :=
      if pyEqStr tt "ssh" then
        (match dlookup tkvs "address" with
         | Option.none => [msgMissingAddress idx]
         | some (.str s) =>
           if stripIsEmpty s then
             ["Target " ++ toString idx ++ ": 'address' must be a non-empty string"]
           else []
         | some _ => ["Target " ++ toString idx ++ ": 'address' must be a non-empty string"])
        ++
        (match dlookup tkvs "username" with
         | Option.none =>
           ["Target " ++ toString idx ++
             ": Missing required field 'username' for SSH target. Example: username: 'admin'"]
         | some (.str s) =>
           if stripIsEmpty s then
             ["Target " ++ toString idx ++ ": 'username' must be a non-empty string"]
           else []
         | some _ => ["Target " ++ toString idx ++ ": 'username' must be a non-empty string"])
        ++
        (let badStr : Option PyVal → Bool := fun o =>
           match o with
           | some (.str s) => stripIsEmpty s
           | some _ => true
           | Option.none => true
         if !hasKey tkvs "credentialName" && !hasKey tkvs "credentialId" then
           ["Target " ++ toString idx ++
             ": SSH target requires either 'credentialName' or 'credentialId'. Example: credentialName: 'my-ssh-key'"]
         else if hasKey tkvs "credentialName" && badStr (dlookup tkvs "credentialName") then
           ["Target " ++ toString idx ++ ": 'credentialName' must be a non-empty string"]
         else if hasKey tkvs "credentialId" && badStr (dlookup tkvs "credentialId") then
           ["Target " ++ toString idx ++ ": 'credentialId' must be a non-empty string"]
         else [])
      else []
    typeErrs ++ sshErrs
  | _ => []

/-- Per-objective reconnaissance errors (`config.py` lines 565-631). -/
def objectiveErrs (idx : Nat) (obj : PyVal) : List String :=
  match obj with
  | .dict okvs =>
    match dlookup okvs "reconnaissance" with
    | Option.none => []
    | some recon =>
      match recon with
      | .dict rkvs =>
        let obj_name := pyStr (PyVal.getD (.dict okvs) "name" (.str ("#" ++ toString idx)))
        (let missing := requiredMissing rkvs ["service", "query"]
         if !missing.isEmpty then
           ["Objective " ++ toString idx ++ " (" ++ obj_name ++
             "): 'reconnaissance' missing required fields: " ++
             String.intercalate ", " missing ++
             ". Example: reconnaissance: \x7bservice: 'prometheus', query: 'rate(...)'\x7d"]
         else [])
        ++
        (match dlookup rkvs "service" with
         | some sv =>
           if pyEqStr sv "prometheus" then []
           else ["Objective " ++ toString idx ++ " (" ++ obj_name ++ "): service '" ++
             pyStr sv ++ "' not supported. Valid services: prometheus"]
         | Option.none => [])
        ++
        (match dlookup rkvs "query" with
         | some (.str s) =>
           if stripIsEmpty s then
             ["Objective " ++ toString idx ++ " (" ++ obj_name ++
               "): 'query' must be a non-empty string"]
           else []
         | some _ => ["Objective " ++ toString idx ++ " (" ++ obj_name ++
             "): 'query' must be a non-empty string"]
         | Option.none => [])
        ++
        (match dlookup rkvs "stabilization_seconds" with
         | some v =>
           if isIntPy v && 0 ≤ toInt v then []
           else ["Objective " ++ toString idx ++ " (" ++ obj_name ++
             "): 'stabilization_seconds' must be a non-negative integer"]
         | Option.none => [])
        ++
        (match dlookup rkvs "samples" with
         | some v =>
           if isIntPy v && 1 ≤ toInt v then []
           else ["Objective " ++ toString idx ++ " (" ++ obj_name ++
             "): 'samples' must be an integer >= 1"]
         | Option.none => [])
        ++
        (match dlookup rkvs "interval" with
         | some v =>
           if isIntPy v && 1 ≤ toInt v then []
           else ["Objective " ++ toString idx ++ " (" ++ obj_name ++
             "): 'interval' must be an integer >= 1"]
         | Option.none => [])
      | _ => ["Objective " ++ toString idx ++ ": 'reconnaissance' must be a dict, got "
          ++ pyTypeName recon]
  | _ => ["Objective " ++ toString idx ++ ": must be a dict, got " ++ pyTypeName obj]

/-- Run-completion criteria errors (`config.py` lines 634-668). -/
def runCompletionErrs (breeder_config : PyVal) : List String :=
  match (PyVal.getD breeder_config "run" (.dict [])).get? "completion" with
  | Option.none => []
  | some completion =>
    match completion with
    | .dict ckvs =>
      match dlookup ckvs "iterations" with
      | Option.none => []
      | some iterations =>
        match iterations with
        | .dict ikvs =>
          match PyVal.getD (.dict ikvs) "min" .none, PyVal.getD (.dict ikvs) "max" .none with
          | PyVal.none, _ => []
          | _, PyVal.none => []
          | minv, maxv =>
            if !(isIntPy minv && 1 ≤ toInt minv) then
              ["'run.completion.iterations.min' must be an integer >= 1"]
            else if !(isIntPy maxv && 1 ≤ toInt maxv) then
              ["'run.completion.iterations.max' must be an integer >= 1"]
            else if toInt maxv < toInt minv then
              ["'run.completion.iterations.min' (" ++ pyStr minv ++
                ") must be <= 'max' (" ++ pyStr maxv ++ ")"]
            else []
        | _ => ["'run.completion.iterations' must be a dict, got " ++ pyTypeName iterations]
    | _ => ["'run.completion' must be a dict, got " ++ pyTypeName completion]

/-- The targets list as iterated by the validator's capability loop
(`.get('effectuation', {}).get('targets', [])`). -/
def getTargets (breeder_config : PyVal) : List PyVal :=
  match (PyVal.getD breeder_config "effectuation" (.dict [])).getD "targets" (.list []) with
  | .list ts => ts
  | _ => []

/-- The full error list collected by `BreederConfig.validate_minimal`
(`config.py` lines 402-668), in the source's append order. -/
def validation_errors (breeder_config : PyVal) : List String :=
  let config_version := (PyVal.getD breeder_config "meta" (.dict [])).getD
    "configVersion" (.str "0.2")
  let versionErrs :=
    if pyEqStr config_version "0.3" then []
    else ["Config version '" ++ pyStr config_version ++
      "' is outdated. Current version is '0.3'. Please update your configuration to v0.3 format. See documentation for migration guide."]
  let breederTypeErrs :=
    if pyFalsy ((PyVal.getD breeder_config "breeder" (.dict [])).getD "type" .none) then
      ["Missing breeder.type. Example: breeder: \x7btype: 'linux_performance'\x7d"]
    else []
  let objectivesVal := PyVal.getD breeder_config "objectives" .none
  let objectivesErrs :=
    if pyFalsy objectivesVal || pyLen objectivesVal = 0 then
      [msgObjectivesEmpty]
    else []
  let targetsVal := (PyVal.getD breeder_config "effectuation" (.dict [])).getD
    "targets" .none
  let targetsErrs :=
    if pyFalsy targetsVal || pyLen targetsVal = 0 then
      ["Missing or empty effectuation.targets array. Example: effectuation: \x7btargets: [\x7btype: 'ssh', address: '1.2.3.4', ...\x7d]\x7d"]
    else []
  let settingsKvs :=
    match PyVal.getD breeder_config "settings" (.dict []) with
    | .dict kvs => kvs
    | _ => []
  let missingSettingsErrs :=
    if supported_categories.any (fun c => hasKey settingsKvs c) then []
    else ["Missing settings configuration. At least one category required: sysctl, sysfs, cpufreq, ethtool"]
  let catErrs := supported_categories.flatMap (fun c => categoryErrs settingsKvs c)
  let guardrailErrs :=
    match validate_guardrails_v03 breeder_config with
    | .error e => [e]
    | .ok _ => []
  let rollbackErrs :=
    match validate_rollback_strategies_v03 breeder_config with
    | .error e => [e]
    | .ok _ => []
  let cooperationErrs :=
    if pyFalsy ((PyVal.getD breeder_config "cooperation" (.dict [])).getD "active"
        (.bool false)) then []
    else
      let parallel := (PyVal.getD breeder_config "run" (.dict [])).getD "parallel" (.int 1)
      if toRat parallel ≤ 1 then
        ["Cooperation enabled but run.parallel=" ++ pyStr parallel ++
          ". Cooperation requires parallel > 1 for multiple workers to share trials."]
      else []
  let breeder_type := (PyVal.getD breeder_config "breeder" (.dict [])).getD "type" .none
  let targetFieldErrs :=
    if pyEqStr breeder_type "linux_performance" then
      (getTargets breeder_config).enum.flatMap (fun it =>
        targetFieldErrsFor "linux_performance" ["ssh"] it.1 it.2)
    else []
  let objectives :=
    match PyVal.getD breeder_config "objectives" (.list []) with
    | .list os => os
    | _ => []
  let objectivesReconErrs := objectives.enum.flatMap (fun io => objectiveErrs io.1 io.2)
  versionErrs ++ breederTypeErrs ++ objectivesErrs ++ targetsErrs ++
    missingSettingsErrs ++ catErrs ++ guardrailErrs ++ rollbackErrs ++
    cooperationErrs ++ targetFieldErrs ++ objectivesReconErrs ++
    runCompletionErrs breeder_config

/-- The single numbered message raised by `validate_minimal`
(`config.py` lines 670-676): each error prefixed with its 1-based
ordinal and the total count. -/
def formatValidationError (errs : List String) : String :=
  let n := errs.length
  let plural := if 1 < n then "s" else ""
  "Config validation failed (" ++ toString n ++ " error" ++ plural ++ "):\n" ++
    String.intercalate "\n" (errs.enum.map (fun ie =>
      "  [" ++ toString (ie.1 + 1) ++ "/" ++ toString n ++ "] " ++ ie.2))

/-- `BreederConfig.validate_minimal`: collect every error, raise one
aggregated message, else return `True`. -/
def validate_minimal (breeder_config : PyVal) : Except String Bool :=
  let errs := validation_errors breeder_config
  if errs.isEmpty then .ok true
  else .error (formatValidationError errs)

/-- Inputs on which the Python validator cannot raise
`TypeError`/`AttributeError` midway (dict config; `meta`, `breeder`,
`effectuation`, `settings`, `cooperation`, `run` dicts when present;
`objectives` and `effectuation.targets` lists when present; targets
are dicts whose `rollback` value, when present, is a dict;
`run.parallel` numeric when present). -/
def ValidateSafe (config : PyVal) : Bool :=
  match config with
  | .dict kvs =>
    (match dlookup kvs "meta" with
     | some (.dict _) => true | some _ => false | Option.none => true) &&
    (match dlookup kvs "breeder" with
     | some (.dict _) => true | some _ => false | Option.none => true) &&
    (match dlookup kvs "objectives" with
     | some (.list _) => true | some _ => false | Option.none => true) &&
    (match dlookup kvs "settings" with
     | some (.dict _) => true | some _ => false | Option.none => true) &&
    (match dlookup kvs "cooperation" with
     | some (.dict _) => true | some _ => false | Option.none => true) &&
    (match dlookup kvs "effectuation" with
     | some (.dict ekvs) =>
       (match dlookup ekvs "targets" with
        | some (.list ts) => ts.all (fun t =>
            match t with
            | .dict tkvs =>
              (match dlookup tkvs "rollback" with
               | some (.dict _) => true | some _ => false | Option.none => true)
            | _ => false)
        | some _ => false
        | Option.none => true)
     | some _ => false
     | Option.none => true) &&
    (match dlookup kvs "run" with
     | some (.dict rkvs) =>
       (match dlookup rkvs "parallel" with
        | some v => isNumericPy v
        | Option.none => true)
     | some _ => false
     | Option.none => true)
  | _ => false

/-! ## Claim theorems about the validator -/

theorem dlookup_mem (kvs : List (String × PyVal)) (k : String) (v : PyVal)
    (h : dlookup kvs k = some v) : (k, v) ∈ kvs := by
  induction kvs with
  | nil => simp [dlookup] at h
  | cons kv rest ih =>
    cases kv with
    | mk a b =>
      by_cases hk : a = k
      · simp [dlookup, hk] at h
        subst hk
        subst h
        exact List.mem_cons_self _ _
      · simp [dlookup, hk] at h
        exact List.mem_cons_of_mem _ (ih h)

/-- Empty/missing objectives puts the objectives message in the
aggregated error list. -/
theorem msgObjectivesEmpty_mem (config : PyVal)
    (hobj : pyFalsy (PyVal.getD config "objectives" .none) = true) :
    msgObjectivesEmpty ∈ validation_errors config := by
  unfold validation_errors
  simp [hobj, List.mem_append]

/-- An SSH target without an address (under a capability-listed
breeder type) puts the address message in the aggregated list. -/
theorem msgMissingAddress_mem (config : PyVal) (idx : Nat)
    (tkvs : List (String × PyVal))
    (hbt : pyEqStr ((PyVal.getD config "breeder" (.dict [])).getD "type" .none)
      "linux_performance" = true)
    (htarg : (getTargets config).get? idx = some (.dict tkvs))
    (htype : dlookup tkvs "type" = some (.str "ssh"))
    (haddr : dlookup tkvs "address" = Option.none) :
    msgMissingAddress idx ∈ validation_errors config := by
  have hmem : (idx, PyVal.dict tkvs) ∈ (getTargets config).enum :=
    List.mk_mem_enum_iff_get?.mpr htarg
  have hin : msgMissingAddress idx ∈
      targetFieldErrsFor "linux_performance" ["ssh"] idx (.dict tkvs) := by
    unfold targetFieldErrsFor
    simp [PyVal.getD, htype, haddr, pyFalsy, pyEqStr, List.mem_append]
  have hflat : msgMissingAddress idx ∈ (getTargets config).enum.flatMap (fun it =>
      targetFieldErrsFor "linux_performance" ["ssh"] it.1 it.2) :=
    List.mem_flatMap.mpr ⟨(idx, .dict tkvs), hmem, hin⟩
  have hcomp : msgMissingAddress idx ∈
      (if pyEqStr ((PyVal.getD config "breeder" (.dict [])).getD "type" .none)
          "linux_performance" = true then
        (getTargets config).enum.flatMap (fun it =>
          targetFieldErrsFor "linux_performance" ["ssh"] it.1 it.2)
      else []) := by
    rw [if_pos hbt]
    exact hflat
  simp only [validation_errors]
  exact List.mem_append_left _ (List.mem_append_left _ (List.mem_append_right _ hcomp))

/-- An inverted integer range at constraint 0 of a present parameter
puts the inverted-range message in the aggregated list. -/
theorem msgInvertedRange_mem (config : PyVal) (cat p : String)
    (pkvs ckvs : List (String × PyVal)) (cs : List PyVal) (stepv lowv upv : PyVal)
    (hcat : cat ∈ supported_categories)
    (hpname : stripIsEmpty p = false)
    (hparam : getParam config cat p = some (.dict pkvs))
    (hconstraints : dlookup pkvs "constraints" = some (.list (PyVal.dict ckvs :: cs)))
    (hnoval : dlookup ckvs "values" = Option.none)
    (hstep : dlookup ckvs "step" = some stepv) (hlow : dlookup ckvs "lower" = some lowv)
    (hupp : dlookup ckvs "upper" = some upv)
    (hsn : isNumericPy stepv = true) (hln : isNumericPy lowv = true)
    (hun : isNumericPy upv = true)
    (hinv : toRat upv ≤ toRat lowv) :
    msgInvertedRange (cat ++ "." ++ p) 0 lowv upv ∈ validation_errors config := by
  have hvc : validate_constraints_v03 (.list (PyVal.dict ckvs :: cs)) (cat ++ "." ++ p)
      = .error (msgInvertedRange (cat ++ "." ++ p) 0 lowv upv) := by
    unfold validate_constraints_v03
    have hks : hasKey ckvs "step" = true := by simp [hasKey, hstep]
    simp [hnoval, hks, List.enum, List.enumFrom, List.findSome?, requiredMissing,
      hasKey, hstep, hlow, hupp, hsn, hln, hun, hinv]
  have hpe : paramErrs cat p (.dict pkvs)
      = [msgInvertedRange (cat ++ "." ++ p) 0 lowv upv] := by
    unfold paramErrs
    simp [hpname, hconstraints, hvc]
  cases config with
  | dict kvs =>
    unfold getParam topGet at hparam
    cases hset : dlookup kvs "settings" with
    | none => simp [hset] at hparam
    | some sv =>
      simp only [hset] at hparam
      cases sv with
      | dict settings =>
        cases hcatv : dlookup settings cat with
        | none => simp [hcatv] at hparam
        | some catv =>
          simp only [hcatv] at hparam
          cases catv with
          | dict params =>
            have hce : msgInvertedRange (cat ++ "." ++ p) 0 lowv upv
                ∈ categoryErrs settings cat := by
              unfold categoryErrs
              rw [hcatv]
              exact List.mem_flatMap.mpr ⟨(p, .dict pkvs),
                dlookup_mem _ _ _ hparam, by simp [hpe]⟩
            have hcc : msgInvertedRange (cat ++ "." ++ p) 0 lowv upv
                ∈ supported_categories.flatMap (fun c => categoryErrs settings c) :=
              List.mem_flatMap.mpr ⟨cat, hcat, hce⟩
            have hsk : (match PyVal.getD (PyVal.dict kvs) "settings" (PyVal.dict []) with
                | PyVal.dict s => s
                | _ => []) = settings := by
              simp [PyVal.getD, hset]
            simp only [validation_errors, hsk]
            exact List.mem_append_left _ (List.mem_append_left _
              (List.mem_append_left _ (List.mem_append_left _
              (List.mem_append_left _ (List.mem_append_left _
              (List.mem_append_right _ hcc))))))
          | str s => simp at hparam
          | int n => simp at hparam
          | float q => simp at hparam
          | bool b => simp at hparam
          | none => simp at hparam
          | list xs => simp at hparam
      | str s => simp at hparam
      | int n => simp at hparam
      | float q => simp at hparam
      | bool b => simp at hparam
      | none => simp at hparam
      | list xs => simp at hparam
  | str s => simp [getParam, topGet] at hparam
  | int n => simp [getParam, topGet] at hparam
  | float q => simp [getParam, topGet] at hparam
  | bool b => simp [getParam, topGet] at hparam
  | none => simp [getParam, topGet] at hparam
  | list xs => simp [getParam, topGet] at hparam

theorem msgObj_ne_msgAddr (idx : Nat) : msgObjectivesEmpty ≠ msgMissingAddress idx := by
  intro h
  have h2 := congrArg (fun s => s.data.head?) h
  simp [msgObjectivesEmpty, msgMissingAddress, String.data_append] at h2

theorem msgObj_ne_msgInv (pn : String) (i : Nat) (l u : PyVal) :
    msgObjectivesEmpty ≠ msgInvertedRange pn i l u := by
  intro h
  have h2 := congrArg (fun s => s.data.head?) h
  simp [msgObjectivesEmpty, msgInvertedRange, String.data_append] at h2

theorem msgAddr_ne_msgInv (idx : Nat) (pn : String) (i : Nat) (l u : PyVal) :
    msgMissingAddress idx ≠ msgInvertedRange pn i l u := by
  intro h
  have h2 := congrArg (fun s => s.data.head?) h
  simp [msgMissingAddress, msgInvertedRange, String.data_append] at h2

/-- C4: Validator aggregation — a definition that simultaneously has
empty objectives, an SSH target with no address (under a
capability-listed breeder type), and an inverted integer-range
constraint gets all three violations reported by one
`validate_minimal` call: all three (pairwise distinct) messages are in
the collected error list, and the single raised message is the
numbered `[i/N]`-prefixed aggregation of that list. -/
theorem C4_validator_aggregation (config : PyVal) (idx : Nat)
    (tkvs pkvs ckvs : List (String × PyVal)) (cat p : String) (cs : List PyVal)
    (stepv lowv upv : PyVal)
    (hsafe : ValidateSafe config = true)
    (hobj : pyFalsy (PyVal.getD config "objectives" .none) = true)
    (hbt : pyEqStr ((PyVal.getD config "breeder" (.dict [])).getD "type" .none)
      "linux_performance" = true)
    (htarg : (getTargets config).get? idx = some (.dict tkvs))
    (htype : dlookup tkvs "type" = some (.str "ssh"))
    (haddr : dlookup tkvs "address" = Option.none)
    (hcat : cat ∈ supported_categories) (hpname : stripIsEmpty p = false)
    (hparam : getParam config cat p = some (.dict pkvs))
    (hconstraints : dlookup pkvs "constraints" = some (.list (PyVal.dict ckvs :: cs)))
    (hnoval : dlookup ckvs "values" = Option.none)
    (hstep : dlookup ckvs "step" = some stepv) (hlow : dlookup ckvs "lower" = some lowv)
    (hupp : dlookup ckvs "upper" = some upv)
    (hsn : isNumericPy stepv = true) (hln : isNumericPy lowv = true)
    (hun : isNumericPy upv = true)
    (hinv : toRat upv ≤ toRat lowv) :
    ∃ errs, validation_errors config = errs
      ∧ msgObjectivesEmpty ∈ errs
      ∧ msgMissingAddress idx ∈ errs
      ∧ msgInvertedRange (cat ++ "." ++ p) 0 lowv upv ∈ errs
      ∧ msgObjectivesEmpty ≠ msgMissingAddress idx
      ∧ msgObjectivesEmpty ≠ msgInvertedRange (cat ++ "." ++ p) 0 lowv upv
      ∧ msgMissingAddress idx ≠ msgInvertedRange (cat ++ "." ++ p) 0 lowv upv
      ∧ validate_minimal config = .error (formatValidationError errs) := by
  refine ⟨validation_errors config, rfl, msgObjectivesEmpty_mem config hobj,
    msgMissingAddress_mem config idx tkvs hbt htarg htype haddr,
    msgInvertedRange_mem config cat p pkvs ckvs cs stepv lowv upv hcat hpname hparam
      hconstraints hnoval hstep hlow hupp hsn hln hun hinv,
    msgObj_ne_msgAddr idx, msgObj_ne_msgInv _ _ _ _, msgAddr_ne_msgInv _ _ _ _ _, ?_⟩
  have hne : validation_errors config ≠ [] := by
    intro h
    have hm := msgObjectivesEmpty_mem config hobj
    rw [h] at hm
    simp at hm
  unfold validate_minimal
  rw [if_neg]
  simpa [List.isEmpty_iff] using hne

/-- A concrete definition with the three violations of C4. -/
def badCfg : PyVal :=
  .dict [
    ("meta", .dict [("configVersion", .str "0.3")]),
    ("breeder", .dict [("type", .str "linux_performance")]),
    ("objectives", .list []),
    ("effectuation", .dict [("targets", .list [.dict [("type", .str "ssh"),
      ("username", .str "root"), ("credentialName", .str "k")]])]),
    ("settings", .dict [("sysctl", .dict [("bad", .dict [("constraints",
      .list [.dict [("step", .int 1), ("lower", .int 10), ("upper", .int 5)]])])])])]

/-- C4 witness: the three violations of `badCfg` are all reported by a
single aggregated raise. -/
theorem C4_validator_aggregation_witness :
    ∃ errs, validation_errors badCfg = errs
      ∧ msgObjectivesEmpty ∈ errs
      ∧ msgMissingAddress 0 ∈ errs
      ∧ msgInvertedRange ("sysctl" ++ "." ++ "bad") 0 (.int 10) (.int 5) ∈ errs
      ∧ msgObjectivesEmpty ≠ msgMissingAddress 0
      ∧ msgObjectivesEmpty ≠ msgInvertedRange ("sysctl" ++ "." ++ "bad") 0 (.int 10) (.int 5)
      ∧ msgMissingAddress 0 ≠ msgInvertedRange ("sysctl" ++ "." ++ "bad") 0 (.int 10) (.int 5)
      ∧ validate_minimal badCfg = .error (formatValidationError errs) :=
  C4_validator_aggregation badCfg 0
    [("type", .str "ssh"), ("username", .str "root"), ("credentialName", .str "k")]
    [("constraints", .list [.dict [("step", .int 1), ("lower", .int 10),
      ("upper", .int 5)]])]
    [("step", .int 1), ("lower", .int 10), ("upper", .int 5)]
    "sysctl" "bad" [] (.int 1) (.int 10) (.int 5)
    (by decide) rfl rfl rfl rfl rfl (by decide) (by decide) rfl rfl rfl rfl rfl rfl
    rfl rfl rfl (by norm_num [toRat])

/-- C5 counterexample: a constraints list whose element 0 is a
well-formed categorical constraint but whose element 1 lacks any
`values` list passes `validate_constraints_v03` — it is NOT reported
as a validation error, contrary to the claim. -/
theorem C5_counterexample :
    validate_constraints_v03 (.list [.dict [("values",
      .list [.str "performance", .str "powersave"])], .dict []]) "cpufreq.governor"
      = .ok "categorical" := rfl

/-- C5 (amended): categorical constraint validation inspects only
element 0 of the constraints list — whenever the first constraint's
`values` is a list of at least 2 strings, the whole list is accepted
as categorical, regardless of the remaining constraints. -/
theorem C5_categorical_checks_first_only (param_name : String)
    (fkvs : List (String × PyVal)) (xs rest : List PyVal)
    (hv : dlookup fkvs "values" = some (.list xs))
    (hlen : 2 ≤ xs.length)
    (hstr : ∀ x ∈ xs, ∃ s, x = PyVal.str s) :
    validate_constraints_v03 (.list (.dict fkvs :: rest)) param_name
      = .ok "categorical" := by
  have h2 : ¬ xs.length < 2 := not_lt.mpr hlen
  unfold validate_constraints_v03
  simp only [hv, h2, if_false]
  split
  · rename_i e heq
    exfalso
    obtain ⟨a, ha, hfa⟩ := List.exists_of_findSome?_eq_some heq
    obtain ⟨i, x⟩ := a
    obtain ⟨s, hs⟩ := hstr x (List.get?_mem (List.mk_mem_enum_iff_get?.mp ha))
    rw [hs] at hfa
    simp at hfa
  · rfl

/-- C5 witness: a list with a valid categorical head and a junk second
element is accepted. -/
theorem C5_categorical_checks_first_only_witness :
    validate_constraints_v03 (.list [.dict [("values", .list [.str "a", .str "b"])],
      .dict [("bad", .int 1)]]) "sysctl.x" = .ok "categorical" :=
  C5_categorical_checks_first_only "sysctl.x"
    [("values", .list [.str "a", .str "b"])] [.str "a", .str "b"]
    [.dict [("bad", .int 1)]] rfl (by decide)
    (by
      intro x hx
      simp at hx
      rcases hx with h | h
      · exact ⟨"a", h⟩
      · exact ⟨"b", h⟩)

/-! ## Lifecycle operations (`BreederService`)

The external collaborators (Windmill job runtime, metadata/archive
repositories, uuid/clock) are modelled as oracle environments; the
embeddings mirror the source's control flow and bookkeeping.  The
bounded polling/retry loops inside `create_breeder` are collapsed to a
success/failure oracle outcome each (their timing is not modelled), and
the worker launch payload (config copy + shard) is not re-recorded
here — the sharder itself is embedded and verified above; job-launch
success is an oracle of the (target, run) grid cell. -/

/-- Python `int(...)`-ish view used for `range(parallel)`. -/
def pyToNat : PyVal → Nat
  | .int n => n.toNat
  | .bool b => if b then 1 else 0
  | _ => 0

/-- `d[k] = v` on a top-level config section. -/
def setTop (config : PyVal) (k : String) (v : PyVal) : PyVal :=
  match config with
  | .dict kvs => .dict (setKey kvs k v)
  | c => c

/-- `targets = config.get('effectuation', {}).get('targets', [])`. -/
def targetsOf (config : PyVal) : List PyVal :=
  match (PyVal.getD config "effectuation" (.dict [])).getD "targets" (.list []) with
  | .list ts => ts
  | _ => []

/-- `parallel_runs = config.get('run', {}).get('parallel', 1)`. -/
def parallelOf (config : PyVal) : Nat :=
  pyToNat ((PyVal.getD config "run" (.dict [])).getD "parallel" (.int 1))

/-- `is_cooperative = config.get('cooperation', {}).get('active', False)`. -/
def cooperativeOf (config : PyVal) : Bool :=
  !pyFalsy ((PyVal.getD config "cooperation" (.dict [])).getD "active" (.bool false))

mutual

/-- `BreederService._normalize_constraints`'s `normalize_dict`
(`breeder_service.py` lines 201-217): rewrite each bare
`\x7bvalues: [...]\x7d` single-key dict into a one-element list, recursively. -/
def normalize_dict : PyVal → PyVal
  | .dict kvs =>
    if (dlookup kvs "values").isSome && kvs.length = 1 then .list [.dict kvs]
    else .dict (normalizeKVs kvs)
  | .list xs => .list (normalizeList xs)
  | v => v

def normalizeKVs : List (String × PyVal) → List (String × PyVal)
  | [] => []
  | (k, v) :: rest => (k, normalize_dict v) :: normalizeKVs rest

def normalizeList : List PyVal → List PyVal
  | [] => []
  | v :: rest => normalize_dict v :: normalizeList rest

end

/-- `_normalize_constraints`: normalize only the `settings` section. -/
def normalizeConfig (config : PyVal) : PyVal :=
  match config with
  | .dict kvs =>
    match dlookup kvs "settings" with
    | some sv => .dict (setKey kvs "settings" (normalize_dict sv))
    | Option.none => config
  | v => v

/-- A uniform `{"result": "FAILURE", "error": e}` response. -/
def failureResp (e : String) : PyVal :=
  .dict [("result", .str "FAILURE"), ("error", .str e)]

/-- Job ids successfully launched over the (target × run) grid:
for every target index and run index, the oracle's job id if the
launch succeeded. -/
def gridLaunchedIds (launch : Nat → Nat → Option String) (targetsCount parallel : Nat) :
    List String :=
  (List.range targetsCount).flatMap (fun t => (List.range parallel).filterMap
    (fun r => launch t r))

/-- Outcome of the synchronous preflight call: the collaborator
completed with a result value, or raised (script missing / failed). -/
inductive PreflightOutcome where
  | completed (r : PyVal)
  | raised

/-- Oracle environment for `create_breeder`: preflight outcome, the
generated uuid and timestamp, whether the breeder-state table became
ready within the bounded wait, whether the Optuna schema
initialization (after retries) succeeded, and per-grid-cell launch
outcomes. -/
structure CreateEnv where
  preflight : PreflightOutcome
  uuidStr : String
  creationTs : String
  tableReady : Bool
  optunaOk : Bool
  launch : Nat → Nat → Option String

/-- Observable outcome of `create_breeder`: the returned response, the
side effects on the archive store, and the finally-persisted metadata
definition (`Option.none` when never inserted or rolled back). -/
structure CreateOutcome where
  response : PyVal
  archiveCreated : Bool
  metaFinal : Option PyVal
  archiveDropped : Bool
  launchedJobs : List String

/-- The part of `create_breeder` after the preflight gate
(`breeder_service.py` lines 273-461): normalize constraints, assign
the uuid, create the archive store and state table, wait for the
table, initialize the optimization schema (rolling back on failure),
insert metadata, launch the (target × run) grid collecting job ids
and failures, persist the job ids when any launch succeeded, and roll
back entirely if any launch failed. -/
def create_after_preflight (env : CreateEnv) (breeder_config : PyVal) (name : String) :
    CreateOutcome :=
  let cfg1 := normalizeConfig breeder_config
  let cfg2 := setTop cfg1 "breeder"
    (match PyVal.getD cfg1 "breeder" (.dict []) with
     | .dict bkvs => .dict (setKey bkvs "uuid" (.str env.uuidStr))
     | v => v)
  if !env.tableReady then
    { response := failureResp ("Breeder state table did not become ready within 10s"),
      archiveCreated := true, metaFinal := Option.none, archiveDropped := true,
      launchedJobs := [] }
  else if !env.optunaOk then
    { response := failureResp ("Failed to initialize Optuna schema"),
      archiveCreated := true, metaFinal := Option.none, archiveDropped := true,
      launchedJobs := [] }
  else
    let targets := targetsOf breeder_config
    let parallel_runs := parallelOf breeder_config
    let grid := (List.range targets.length).flatMap (fun t =>
      (List.range parallel_runs).map (fun r => (t, r)))
    let worker_job_ids := grid.filterMap (fun tr => env.launch tr.1 tr.2)
    let failures := grid.length - worker_job_ids.length
    let metaStored :=
      if worker_job_ids.isEmpty then cfg2
      else setTop cfg2 "worker_job_ids" (.list (worker_job_ids.map (fun j => .str j)))
    if failures ≠ 0 then
      { response := failureResp ("Failed to launch " ++ toString failures ++ " worker(s)"),
        archiveCreated := true, metaFinal := Option.none, archiveDropped := true,
        launchedJobs := worker_job_ids }
    else
      { response := .dict [("result", .str "SUCCESS"),
          ("data", .dict [("id", .str env.uuidStr), ("name", .str name),
            ("status", .str "active"), ("createdAt", .str env.creationTs)])],
        archiveCreated := true, metaFinal := some metaStored, archiveDropped := false,
        launchedJobs := worker_job_ids }

/-- `BreederService.create_breeder` (`breeder_service.py` lines
223-461): validate; run the preflight check synchronously — if it
completes with a result other than `SUCCESS` return `FAILURE`
immediately, whereas an exception (missing script) is logged and
creation continues — then proceed to creation. -/
def create_breeder (env : CreateEnv) (breeder_config : PyVal) (name : String) :
    CreateOutcome :=
  match validate_minimal breeder_config with
  | .error e =>
    { response := failureResp e, archiveCreated := false, metaFinal := Option.none,
      archiveDropped := false, launchedJobs := [] }
  | .ok _ =>
    match env.preflight with
    | .completed r =>
      match r with
      | .dict rkvs =>
        if !pyEqStr (PyVal.getD (.dict rkvs) "result" .none) "SUCCESS" then
          { response := .dict [("result", .str "FAILURE"),
              ("error", .str ("Preflight validation failed: " ++
                pyStr (PyVal.getD (.dict rkvs) "error" (.str "Unknown preflight error"))))],
            archiveCreated := false, metaFinal := Option.none, archiveDropped := false,
            launchedJobs := [] }
        else create_after_preflight env breeder_config name
      | _ => create_after_preflight env breeder_config name
    | .raised => create_after_preflight env breeder_config name

/-- Oracle environment for `start_breeder`: the fetched metadata row
(name, stored definition) and per-grid-cell launch outcomes. -/
structure StartEnv where
  row : Option (String × PyVal)
  launch : Nat → Nat → Option String

/-- Observable outcome of `start_breeder`. -/
structure StartOutcome where
  response : PyVal
  shutdownCleared : Bool
  metaFinal : Option PyVal
  launchedJobs : List String

/-- `BreederService.start_breeder` (`breeder_service.py` lines
517-625): fetch the stored definition, clear the shutdown flag,
relaunch the whole (target × run) grid, update the persisted
`worker_job_ids` only when at least one launch succeeded (`if
worker_job_ids:`), and report `PARTIAL_SUCCESS` when some launches
failed. -/
def start_breeder (env : StartEnv) (breeder_id : String) : StartOutcome :=
  match env.row with
  | Option.none =>
    { response := failureResp ("Breeder with ID '" ++ breeder_id ++ "' not found"),
      shutdownCleared := false, metaFinal := Option.none, launchedJobs := [] }
  | some (_, breeder_config) =>
    let targets := targetsOf breeder_config
    let parallel_runs := parallelOf breeder_config
    let grid := (List.range targets.length).flatMap (fun t =>
      (List.range parallel_runs).map (fun r => (t, r)))
    let worker_job_ids := grid.filterMap (fun tr => env.launch tr.1 tr.2)
    let failures := grid.length - worker_job_ids.length
    let metaStored :=
      if worker_job_ids.isEmpty then breeder_config
      else setTop breeder_config "worker_job_ids"
        (.list (worker_job_ids.map (fun j => .str j)))
    if failures ≠ 0 then
      { response := .dict [("result", .str "PARTIAL_SUCCESS"),
          ("error", .str ("Failed to launch " ++ toString failures ++ " worker(s)")),
          ("workers_started", .int worker_job_ids.length),
          ("workers_failed", .int failures)],
        shutdownCleared := true, metaFinal := some metaStored,
        launchedJobs := worker_job_ids }
    else
      { response := .dict [("result", .str "SUCCESS"),
          ("data", .dict [("breeder_id", .str breeder_id),
            ("workers_started", .int worker_job_ids.length),
            ("status", .str "ACTIVE")])],
        shutdownCleared := true, metaFinal := some metaStored,
        launchedJobs := worker_job_ids }

/-- Oracle environment for `delete_breeder`: the fetched metadata row,
the persisted shutdown flag, and per-job cancellation outcomes. -/
structure DeleteEnv where
  row : Option (String × PyVal)
  shutdownRequested : Bool
  cancelOk : PyVal → Bool

/-- Observable outcome of `delete_breeder`. -/
structure DeleteOutcome where
  response : PyVal
  cancelAttempts : List PyVal
  canceledCount : Nat
  droppedDb : Bool
  removedMeta : Bool

/-- `BreederService.delete_breeder` (`breeder_service.py` lines
670-745): not-found fails; with recorded job ids and neither `force`
nor the shutdown flag it fails fast with the active-workers count;
otherwise it attempts to cancel every recorded job (best-effort,
counting successes and failures in logs only), then drops the archive
store and removes the metadata, returning
`workers_cancelled = len(worker_job_ids)`. -/
def delete_breeder (env : DeleteEnv) (breeder_id : String) (force : Bool) :
    DeleteOutcome :=
  match env.row with
  | Option.none =>
    { response := failureResp ("Breeder with ID '" ++ breeder_id ++ "' not found"),
      cancelAttempts := [], canceledCount := 0, droppedDb := false,
      removedMeta := false }
  | some (_, breeder_config) =>
    let worker_job_ids := PyVal.getD breeder_config "worker_job_ids" (.list [])
    let jobs := match worker_job_ids with | .list js => js | _ => []
    if !pyFalsy worker_job_ids then
      if !force && !env.shutdownRequested then
        { response := .dict [("result", .str "FAILURE"),
            ("error", .str "Breeder has active workers. Use force=True to cancel immediately"),
            ("active_workers", .int (pyLen worker_job_ids)),
            ("note", .str "Future: call stop_breeder() for graceful shutdown first")],
          cancelAttempts := [], canceledCount := 0, droppedDb := false,
          removedMeta := false }
      else
        { response := .dict [("result", .str "SUCCESS"),
            ("data", .dict [("breeder_id", .str breeder_id),
              ("delete_type", .str (if force then "force" else "graceful")),
              ("workers_cancelled", .int (pyLen worker_job_ids))])],
          cancelAttempts := jobs,
          canceledCount := (jobs.filter (fun j => env.cancelOk j)).length,
          droppedDb := true, removedMeta := true }
    else
      { response := .dict [("result", .str "SUCCESS"),
          ("data", .dict [("breeder_id", .str breeder_id),
            ("delete_type", .str (if force then "force" else "graceful")),
            ("workers_cancelled", .int (pyLen worker_job_ids))])],
        cancelAttempts := [], canceledCount := 0, droppedDb := true,
        removedMeta := true }

/-! ## Claim theorems about the lifecycle operations -/

theorem normalizeConfig_dict (kvs : List (String × PyVal)) :
    ∃ kvs1, normalizeConfig (.dict kvs) = .dict kvs1 := by
  cases h : dlookup kvs "settings" with
  | none => exact ⟨kvs, by simp [normalizeConfig, h]⟩
  | some sv => exact ⟨setKey kvs "settings" (normalize_dict sv),
      by simp [normalizeConfig, h]⟩

/-- The launch loop's collected ids are exactly the grid's
successfully launched ids. -/
theorem grid_filterMap_eq (launch : Nat → Nat → Option String) (tc pr : Nat) :
    (((List.range tc).flatMap (fun t => (List.range pr).map (fun r => (t, r)))).filterMap
      (fun tr => launch tr.1 tr.2)) = gridLaunchedIds launch tc pr := by
  unfold gridLaunchedIds
  have key : ∀ l : List Nat,
      ((l.flatMap (fun t => (List.range pr).map (fun r => (t, r)))).filterMap
        (fun tr => launch tr.1 tr.2))
      = l.flatMap (fun t => (List.range pr).filterMap (fun r => launch t r)) := by
    intro l
    induction l with
    | nil => rfl
    | cons t rest ih =>
      simp only [List.flatMap_cons, List.filterMap_append, ih, List.filterMap_map]
      rfl
  exact key (List.range tc)

/-- A campaign definition accepted by `validate_minimal`, used by the
lifecycle witnesses and counterexamples. -/
def validCfg : PyVal :=
  .dict [
    ("meta", .dict [("configVersion", .str "0.3")]),
    ("breeder", .dict [("type", .str "linux_performance")]),
    ("objectives", .list [.dict [("name", .str "lat"), ("goal", .str "MINIMIZE"),
      ("reconnaissance", .dict [("service", .str "prometheus"),
        ("query", .str "up")])]]),
    ("effectuation", .dict [("targets", .list [.dict [("type", .str "ssh"),
      ("address", .str "1.2.3.4"), ("username", .str "root"),
      ("credentialName", .str "k")]])]),
    ("settings", .dict [("sysctl", .dict [("p", .dict [("constraints",
      .list [.dict [("step", .int 1), ("lower", .int 0), ("upper", .int 10)]])])])])]

/-- Environment whose preflight call completed with a non-SUCCESS
result. -/
def pfEnvCX : CreateEnv :=
  { preflight := .completed (.dict [("result", .str "FAILURE"),
      ("error", .str "unsupported parameter")]),
    uuidStr := "u", creationTs := "t", tableReady := true, optunaOk := true,
    launch := fun _ _ => some "job-1" }

/-- Environment whose preflight call raised (script absent/failed). -/
def raisedEnv : CreateEnv :=
  { preflight := .raised, uuidStr := "u", creationTs := "t", tableReady := true,
    optunaOk := true, launch := fun _ _ => some "job-1" }

/-- C6 counterexample: on a definition that passes validation, a
preflight call that completes with a result other than SUCCESS makes
`create_breeder` return FAILURE and perform no creation step — it does
not proceed as the claim states. -/
theorem C6_counterexample :
    (create_breeder pfEnvCX validCfg "n").response.get? "result" = some (.str "FAILURE")
    ∧ (create_breeder pfEnvCX validCfg "n").response.get? "error"
      = some (.str "Preflight validation failed: unsupported parameter")
    ∧ (create_breeder pfEnvCX validCfg "n").archiveCreated = false := ⟨rfl, rfl, rfl⟩

/-- C6 (amended): the preflight gate of `create_breeder` — an
exception from the preflight call (collaborator absent or failing) is
non-fatal and creation proceeds, whereas a preflight call that
completes with a result other than `SUCCESS` aborts creation with a
FAILURE response before any creation side effect. -/
theorem C6_preflight_gate :
    (∀ (env : CreateEnv) (config : PyVal) (name : String),
      validate_minimal config = .ok true → env.preflight = .raised →
      (create_breeder env config name).archiveCreated = true)
    ∧ (∀ (env : CreateEnv) (config : PyVal) (name : String)
        (rkvs : List (String × PyVal)),
      validate_minimal config = .ok true →
      env.preflight = .completed (.dict rkvs) →
      pyEqStr (PyVal.getD (.dict rkvs) "result" .none) "SUCCESS" = false →
      (create_breeder env config name).response
          = .dict [("result", .str "FAILURE"),
            ("error", .str ("Preflight validation failed: " ++
              pyStr (PyVal.getD (.dict rkvs) "error" (.str "Unknown preflight error"))))]
        ∧ (create_breeder env config name).archiveCreated = false
        ∧ (create_breeder env config name).metaFinal = Option.none) := by
  constructor
  · intro env config name hval hpf
    simp only [create_breeder, hval, hpf, create_after_preflight]
    repeat' split
    all_goals rfl
  · intro env config name rkvs hval hpf hres
    simp only [create_breeder, hval, hpf, hres, Bool.not_false, if_true]
    refine ⟨?_, ?_, ?_⟩ <;> first | rfl | trivial

/-- C6 witness: concrete instances of both halves of the gate. -/
theorem C6_preflight_gate_witness :
    (create_breeder raisedEnv validCfg "n").archiveCreated = true
    ∧ (create_breeder pfEnvCX validCfg "n").archiveCreated = false :=
  ⟨C6_preflight_gate.1 raisedEnv validCfg "n" rfl rfl,
   (C6_preflight_gate.2 pfEnvCX validCfg "n"
     [("result", .str "FAILURE"), ("error", .str "unsupported parameter")]
     rfl rfl rfl).2.1⟩

/-- Delete environment with two recorded jobs, one of which fails to
cancel. -/
def delEnvCX : DeleteEnv :=
  { row := some ("b", .dict [("worker_job_ids", .list [.str "j1", .str "j2"])]),
    shutdownRequested := false,
    cancelOk := fun j => pyEqStr j "j1" }

/-- C7 counterexample: with two recorded jobs of which only one
cancellation succeeds, the returned `workers_cancelled` is 2 (the
recorded count), not 1 (the successfully cancelled count). -/
theorem C7_counterexample :
    (delete_breeder delEnvCX "bid" true).canceledCount = 1
    ∧ ((delete_breeder delEnvCX "bid" true).response.getD "data" .none).get?
        "workers_cancelled" = some (.int 2)
    ∧ (1 : Int) ≠ 2 := ⟨rfl, rfl, by decide⟩

/-- C7 (amended): when deletion proceeds to cancellation (force, or
shutdown flag already set), every recorded job is attempted
best-effort, the archive store is dropped and the metadata removed
regardless of individual cancellation outcomes, and the returned
`workers_cancelled` count is the number of RECORDED job ids
(`len(worker_job_ids)`), not the number successfully cancelled. -/
theorem C7_delete_reports_recorded_count (env : DeleteEnv) (breeder_id name : String)
    (cfg : PyVal) (jobs : List PyVal) (force : Bool)
    (hrow : env.row = some (name, cfg))
    (hjobs : PyVal.getD cfg "worker_job_ids" (.list []) = .list jobs)
    (hne : jobs ≠ [])
    (hgate : force = true ∨ env.shutdownRequested = true) :
    (delete_breeder env breeder_id force).cancelAttempts = jobs
    ∧ (delete_breeder env breeder_id force).droppedDb = true
    ∧ (delete_breeder env breeder_id force).removedMeta = true
    ∧ (delete_breeder env breeder_id force).canceledCount
        = (jobs.filter (fun j => env.cancelOk j)).length
    ∧ (delete_breeder env breeder_id force).response.get? "result" = some (.str "SUCCESS")
    ∧ ((delete_breeder env breeder_id force).response.getD "data" .none).get?
        "workers_cancelled" = some (.int (jobs.length : Int)) := by
  have hfal : pyFalsy (.list jobs) = false := by
    cases jobs with
    | nil => exact absurd rfl hne
    | cons j rest => rfl
  rcases hgate with hf | hs
  · subst hf
    simp only [delete_breeder, hrow]
    rw [hjobs]
    simp [hfal, pyLen, PyVal.get?, PyVal.getD, dlookup]
  · simp only [delete_breeder, hrow]
    rw [hjobs]
    simp [hfal, hs, pyLen, PyVal.get?, PyVal.getD, dlookup]

/-- C7 witness: the amended behaviour at the counterexample's input. -/
theorem C7_delete_reports_recorded_count_witness :
    (delete_breeder delEnvCX "bid" true).cancelAttempts = [.str "j1", .str "j2"]
    ∧ (delete_breeder delEnvCX "bid" true).droppedDb = true
    ∧ (delete_breeder delEnvCX "bid" true).removedMeta = true
    ∧ (delete_breeder delEnvCX "bid" true).canceledCount
        = ([PyVal.str "j1", PyVal.str "j2"].filter
            (fun j => delEnvCX.cancelOk j)).length
    ∧ (delete_breeder delEnvCX "bid" true).response.get? "result" = some (.str "SUCCESS")
    ∧ ((delete_breeder delEnvCX "bid" true).response.getD "data" .none).get?
        "workers_cancelled" = some (.int 2) :=
  C7_delete_reports_recorded_count delEnvCX "bid" "b"
    (.dict [("worker_job_ids", .list [.str "j1", .str "j2"])])
    [.str "j1", .str "j2"] true rfl rfl (List.cons_ne_nil _ _) (Or.inl rfl)

/-- C10: deleting a breeder whose metadata records no worker job ids
(key absent or empty list) bypasses the stop-first gate entirely: the
archive store is dropped and the metadata removed for any `force` and
any shutdown-flag state, returning SUCCESS with
`workers_cancelled = 0` and no cancellation attempts. -/
theorem C10_delete_without_jobs (env : DeleteEnv) (breeder_id name : String)
    (cfg : PyVal) (force : Bool)
    (hrow : env.row = some (name, cfg))
    (hjobs : PyVal.getD cfg "worker_job_ids" (.list []) = .list []) :
    (delete_breeder env breeder_id force).droppedDb = true
    ∧ (delete_breeder env breeder_id force).removedMeta = true
    ∧ (delete_breeder env breeder_id force).cancelAttempts = []
    ∧ (delete_breeder env breeder_id force).response.get? "result" = some (.str "SUCCESS")
    ∧ ((delete_breeder env breeder_id force).response.getD "data" .none).get?
        "workers_cancelled" = some (.int 0) := by
  simp only [delete_breeder, hrow]
  rw [hjobs]
  simp [pyFalsy, pyLen, PyVal.get?, PyVal.getD, dlookup]

/-- Delete environment whose stored definition has no
`worker_job_ids` key. -/
def noJobsEnv : DeleteEnv :=
  { row := some ("b", .dict []), shutdownRequested := false,
    cancelOk := fun _ => false }

/-- C10 witness: metadata without the `worker_job_ids` key, deleted
with `force = false` and the shutdown flag clear. -/
theorem C10_delete_without_jobs_witness :
    (delete_breeder noJobsEnv "bid" false).droppedDb = true
    ∧ (delete_breeder noJobsEnv "bid" false).removedMeta = true
    ∧ (delete_breeder noJobsEnv "bid" false).cancelAttempts = []
    ∧ (delete_breeder noJobsEnv "bid" false).response.get? "result"
      = some (.str "SUCCESS")
    ∧ ((delete_breeder noJobsEnv "bid" false).response.getD "data" .none).get?
        "workers_cancelled" = some (.int 0) :=
  C10_delete_without_jobs noJobsEnv "bid" "b" (.dict []) false rfl rfl

/-- A stored definition with stale worker job ids and a 1×1 grid. -/
def staleCfg : PyVal :=
  .dict [("worker_job_ids", .list [.str "old-job"]),
    ("effectuation", .dict [("targets", .list [.dict [("address", .str "a")]])]),
    ("run", .dict [("parallel", .int 1)])]

/-- Start environment in which every relaunch fails. -/
def staleEnv : StartEnv :=
  { row := some ("b", staleCfg), launch := fun _ _ => Option.none }

/-- C8 counterexample: a `start_breeder` call in which zero launches
succeed retains the stale `worker_job_ids` list from the previous
launch — the persisted list is `["old-job"]` while the set launched in
this call's grid is empty, contradicting the claimed invariant. -/
theorem C8_counterexample :
    (start_breeder staleEnv "bid").metaFinal = some staleCfg
    ∧ ((start_breeder staleEnv "bid").metaFinal.getD .none).get? "worker_job_ids"
      = some (.list [.str "old-job"])
    ∧ gridLaunchedIds staleEnv.launch (targetsOf staleCfg).length (parallelOf staleCfg)
      = [] := ⟨rfl, rfl, rfl⟩

/-- C8 (amended): after a completed, fully successful `create_breeder`
with a non-empty launch grid the persisted `worker_job_ids` equals the
grid's launched job ids; `start_breeder` overwrites (never appends to)
the persisted list whenever at least one launch succeeds; but when
zero launches succeed the previous stale list is retained unchanged
(the `if worker_job_ids:` guard skips the metadata update). -/
theorem C8_worker_job_ids_overwrite :
    (∀ (env : CreateEnv) (kvs : List (String × PyVal)) (name : String),
      (create_breeder env (.dict kvs) name).response.get? "result"
          = some (.str "SUCCESS") →
      gridLaunchedIds env.launch (targetsOf (.dict kvs)).length
          (parallelOf (.dict kvs)) ≠ [] →
      ∃ stored, (create_breeder env (.dict kvs) name).metaFinal = some stored
        ∧ stored.get? "worker_job_ids"
            = some (.list ((gridLaunchedIds env.launch (targetsOf (.dict kvs)).length
                (parallelOf (.dict kvs))).map (fun j => .str j))))
    ∧ (∀ (env : StartEnv) (breeder_id name : String) (ckvs : List (String × PyVal)),
      env.row = some (name, .dict ckvs) →
      gridLaunchedIds env.launch (targetsOf (.dict ckvs)).length
          (parallelOf (.dict ckvs)) ≠ [] →
      ∃ stored, (start_breeder env breeder_id).metaFinal = some stored
        ∧ stored.get? "worker_job_ids"
            = some (.list ((gridLaunchedIds env.launch (targetsOf (.dict ckvs)).length
                (parallelOf (.dict ckvs))).map (fun j => .str j))))
    ∧ (∀ (env : StartEnv) (breeder_id name : String) (cfg : PyVal),
      env.row = some (name, cfg) →
      gridLaunchedIds env.launch (targetsOf cfg).length (parallelOf cfg) = [] →
      (start_breeder env breeder_id).metaFinal = some cfg) := by
  refine ⟨?_, ?_, ?_⟩
  · intro env kvs name hsucc hne
    cases hval : validate_minimal (.dict kvs) with
    | error e =>
      rw [create_breeder, hval] at hsucc
      simp [failureResp, PyVal.get?, dlookup] at hsucc
    | ok b =>
      have hrest : create_breeder env (.dict kvs) name
          = create_after_preflight env (.dict kvs) name := by
        cases hpf : env.preflight with
        | raised => simp [create_breeder, hval, hpf]
        | completed r =>
          cases r with
          | dict rkvs =>
            by_cases hres : pyEqStr (PyVal.getD (.dict rkvs) "result" .none) "SUCCESS"
              = true
            · simp [create_breeder, hval, hpf, hres]
            · exfalso
              rw [create_breeder, hval] at hsucc
              rw [hpf] at hsucc
              simp only [Bool.not_eq_true] at hres
              simp only [hres, Bool.not_false, if_true] at hsucc
              simp [PyVal.get?, dlookup] at hsucc
          | str s => simp [create_breeder, hval, hpf]
          | int n => simp [create_breeder, hval, hpf]
          | float q => simp [create_breeder, hval, hpf]
          | bool bb => simp [create_breeder, hval, hpf]
          | none => simp [create_breeder, hval, hpf]
          | list xs => simp [create_breeder, hval, hpf]
      cases htr : env.tableReady with
      | false =>
        exfalso
        rw [hrest] at hsucc
        simp [create_after_preflight, htr, failureResp, PyVal.get?, dlookup] at hsucc
      | true =>
        cases hok : env.optunaOk with
        | false =>
          exfalso
          rw [hrest] at hsucc
          simp [create_after_preflight, htr, hok, failureResp, PyVal.get?,
            dlookup] at hsucc
        | true =>
          rw [hrest] at hsucc ⊢
          simp only [create_after_preflight, htr, hok, Bool.not_true,
            Bool.false_eq_true, if_false] at hsucc ⊢
          split at hsucc
          · simp [failureResp, PyVal.get?, dlookup] at hsucc
          · rename_i h3
            rw [if_neg h3]
            refine ⟨_, rfl, ?_⟩
            rw [grid_filterMap_eq]
            have hie : (gridLaunchedIds env.launch (targetsOf (.dict kvs)).length
                (parallelOf (.dict kvs))).isEmpty = false := by
              cases hgl : gridLaunchedIds env.launch (targetsOf (.dict kvs)).length
                  (parallelOf (.dict kvs)) with
              | nil => exact absurd hgl hne
              | cons a l => rfl
            simp only [hie, Bool.false_eq_true, if_false]
            obtain ⟨kvs1, hn⟩ := normalizeConfig_dict kvs
            rw [hn]
            simp [setTop, PyVal.get?, dlookup_setKey_self]
  · intro env breeder_id name ckvs hrow hne
    unfold start_breeder
    simp only [hrow]
    rw [grid_filterMap_eq]
    have hie : (gridLaunchedIds env.launch (targetsOf (.dict ckvs)).length
        (parallelOf (.dict ckvs))).isEmpty = false := by
      cases hgl : gridLaunchedIds env.launch (targetsOf (.dict ckvs)).length
          (parallelOf (.dict ckvs)) with
      | nil => exact absurd hgl hne
      | cons a l => rfl
    simp only [hie, Bool.false_eq_true, if_false]
    split
    · exact ⟨_, rfl, by simp [setTop, PyVal.get?, dlookup_setKey_self]⟩
    · exact ⟨_, rfl, by simp [setTop, PyVal.get?, dlookup_setKey_self]⟩
  · intro env breeder_id name cfg hrow hempty
    unfold start_breeder
    simp only [hrow]
    rw [grid_filterMap_eq, hempty]
    simp only [List.isEmpty_nil, if_true]
    split
    · rfl
    · rfl

/-- Start environment with a stale id where the single relaunch
succeeds. -/
def overwriteEnv : StartEnv :=
  { row := some ("b", staleCfg), launch := fun _ _ => some "new-job" }

/-- C8 witness: concrete instances of all three parts — create
persists the launched ids; a successful relaunch overwrites the stale
list; an entirely failed relaunch retains it. -/
theorem C8_worker_job_ids_overwrite_witness :
    (∃ stored, (create_breeder raisedEnv validCfg "n").metaFinal = some stored
      ∧ stored.get? "worker_job_ids" = some (.list [.str "job-1"]))
    ∧ (∃ stored, (start_breeder overwriteEnv "bid").metaFinal = some stored
      ∧ stored.get? "worker_job_ids" = some (.list [.str "new-job"]))
    ∧ (start_breeder staleEnv "bid").metaFinal = some staleCfg :=
  ⟨C8_worker_job_ids_overwrite.1 raisedEnv
      [("meta", .dict [("configVersion", .str "0.3")]),
       ("breeder", .dict [("type", .str "linux_performance")]),
       ("objectives", .list [.dict [("name", .str "lat"), ("goal", .str "MINIMIZE"),
         ("reconnaissance", .dict [("service", .str "prometheus"),
           ("query", .str "up")])]]),
       ("effectuation", .dict [("targets", .list [.dict [("type", .str "ssh"),
         ("address", .str "1.2.3.4"), ("username", .str "root"),
         ("credentialName", .str "k")]])]),
       ("settings", .dict [("sysctl", .dict [("p", .dict [("constraints",
         .list [.dict [("step", .int 1), ("lower", .int 0),
           ("upper", .int 10)]])])])])] "n" rfl (by decide),
   C8_worker_job_ids_overwrite.2.1 overwriteEnv "bid" "b"
     [("worker_job_ids", .list [.str "old-job"]),
      ("effectuation", .dict [("targets", .list [.dict [("address", .str "a")]])]),
      ("run", .dict [("parallel", .int 1)])] rfl (by decide),
   C8_worker_job_ids_overwrite.2.2 staleEnv "bid" "b" staleCfg rfl rfl⟩

/-! ## CPython IEEE-754 binary64 semantics for the sharder

`shardConstraint` above idealizes CPython float arithmetic as exact
rational arithmetic.  That idealization is harmless for bounds and
frame properties, but not for exact-equality claims: CPython computes
`shard_size = delta / total_shards`, `overlap = int(shard_size * 0.10)`
and `new_upper = lower + shard_size * (shard_index + 1)` in binary64
floats, which round.  The following second model of
`determine_config_shard` implements CPython's numeric semantics
faithfully for values in the normal binary64 range: a float value is a
rational of 53-significant-bit dyadic form, every float arithmetic
result is rounded to 53 significant bits with round-half-to-even
(`flQ`), `int / int` true division returns the correctly rounded exact
quotient (CPython `long_true_divide`), the int operand of a mixed
int/float operation is first converted by the correctly rounded
`PyLong_AsDouble`, and the literal `0.10` denotes `flQ (1/10)`.
(Binary64 exponent overflow/underflow is not modelled; all values
involved here are far inside the normal range.)  The arithmetic is
written with `mkRat` and raw integer operations so that closed
instances evaluate inside the kernel. -/

/-- Exact rational addition via `mkRat` (definitionally reducible). -/
def qAdd (a b : ℚ) : ℚ := mkRat (a.num * b.den + b.num * a.den) (a.den * b.den)

/-- Exact rational subtraction via `mkRat`. -/
def qSub (a b : ℚ) : ℚ := mkRat (a.num * b.den - b.num * a.den) (a.den * b.den)

/-- Exact rational multiplication via `mkRat`. -/
def qMul (a b : ℚ) : ℚ := mkRat (a.num * b.num) (a.den * b.den)

/-- Exact rational negation via `mkRat`. -/
def qNeg (q : ℚ) : ℚ := mkRat (-q.num) q.den

/-- Exact rational division via `mkRat` (0 on division by zero; the
sharder never divides by zero on well-formed worker grids). -/
def qDiv (a b : ℚ) : ℚ :=
  mkRat (a.num * (b.den : Int) * (if b.num < 0 then -1 else 1)) (a.den * b.num.natAbs)

/-- Floor of a rational as an integer (floor division of numerator by
denominator). -/
def qFloorI (q : ℚ) : Int := Int.fdiv q.num (q.den : Int)

/-- Truncation toward zero: Python `int(float)`. -/
def qTrunc2 (q : ℚ) : Int :=
  if q.num < 0 then -(Int.ofNat (q.num.natAbs / q.den)) else Int.ofNat (q.num.natAbs / q.den)

/-- Fuel-bounded `⌊log₂ n⌋` (0 for `n = 0`); fuel 1100 covers every
number below `2 ^ 1100`, far beyond the binary64 range. -/
def log2Fuel : Nat → Nat → Nat
  | 0, _ => 0
  | fuel + 1, n => if 2 ≤ n then log2Fuel fuel (n / 2) + 1 else 0

/-- `2 ^ e` as a rational, for an integer (possibly negative) `e`. -/
def pow2Z (e : Int) : ℚ :=
  if 0 ≤ e then mkRat (Int.ofNat (Nat.pow 2 e.toNat)) 1
  else mkRat 1 (Nat.pow 2 (-e).toNat)

/-- The binary exponent of a positive rational: the largest `e` with
`2 ^ e ≤ q` (estimate from numerator/denominator bit lengths, then
correct by at most one). -/
def ratExp2 (q : ℚ) : Int :=
  let e0 : Int := (log2Fuel 1100 q.num.natAbs : Int) - (log2Fuel 1100 q.den : Int)
  if pow2Z (e0 + 1) ≤ q then e0 + 1
  else if pow2Z e0 ≤ q then e0
  else e0 - 1

/-- Round a rational to the nearest integer, ties to even (IEEE-754
default rounding). -/
def roundHalfEven (x : ℚ) : Int :=
  let n := qFloorI x
  let r := qSub x (mkRat n 1)
  if r < mkRat 1 2 then n
  else if mkRat 1 2 < r then n + 1
  else if n % 2 = 0 then n else n + 1

/-- Round a positive rational to 53 significant bits (binary64
round-to-nearest-even, unbounded exponent): scale into `[2^52, 2^53)`,
round to an integer significand, scale back. -/
def flPos (q : ℚ) : ℚ :=
  let s : Int := 52 - ratExp2 q
  qMul (mkRat (roundHalfEven (qMul q (pow2Z s))) 1) (pow2Z (-s))

/-- Round any rational to binary64 (round-to-nearest-even, 53-bit
significand, exponent unbounded — exact for the normal range). -/
def flQ (q : ℚ) : ℚ :=
  if q.num < 0 then qNeg (flPos (qNeg q)) else if q.num = 0 then q else flPos q

/-- Value of a Python number as a binary64 (CPython
`PyLong_AsDouble` / `float.__float__`): ints and bools are correctly
rounded, floats are returned as they are. -/
def pyToF : PyVal → ℚ
  | .int n => flQ (mkRat n 1)
  | .float q => q
  | .bool b => if b then flQ (mkRat 1 1) else flQ (mkRat 0 1)
  | _ => 0

/-- CPython `a + b` on numbers: exact on int pairs, otherwise binary64
addition after converting the int operand. -/
def pyAddNum (a b : PyVal) : PyVal :=
  if isIntPy a && isIntPy b then .int (toInt a + toInt b)
  else .float (flQ (qAdd (pyToF a) (pyToF b)))

/-- CPython `a - b` on numbers. -/
def pySubNum (a b : PyVal) : PyVal :=
  if isIntPy a && isIntPy b then .int (toInt a - toInt b)
  else .float (flQ (qSub (pyToF a) (pyToF b)))

/-- CPython `a * b` on numbers. -/
def pyMulNum (a b : PyVal) : PyVal :=
  if isIntPy a && isIntPy b then .int (toInt a * toInt b)
  else .float (flQ (qMul (pyToF a) (pyToF b)))

/-- CPython `a / b` (true division, always a float): on int pairs the
correctly rounded exact quotient (`long_true_divide`), otherwise
binary64 division. -/
def pyDivNum (a b : PyVal) : PyVal :=
  if isIntPy a && isIntPy b then .float (flQ (qDiv (mkRat (toInt a) 1) (mkRat (toInt b) 1)))
  else .float (flQ (qDiv (pyToF a) (pyToF b)))

/-- CPython `abs` on numbers (type preserving). -/
def pyAbsNum (a : PyVal) : PyVal :=
  match a with
  | .int n => .int (Int.ofNat n.natAbs)
  | .float q => .float (if q.num < 0 then qNeg q else q)
  | .bool b => .int (if b then 1 else 0)
  | v => v

/-- `shardConstraint` under CPython binary64 float semantics
(`breeder_service.py` lines 94-131): identical control flow, but
`delta / total_shards`, `shard_size * 0.10`, and the
`lower + shard_size * …` bound computations follow CPython's int/float
arithmetic with IEEE rounding instead of exact rationals. -/
def shardConstraintFloat (hash : String → Nat) (run_id target_id total_shards : Nat)
    (category setting_key : String) (constraint_idx : Nat) (c : PyVal) : PyVal :=
  match c with
  | .dict kvs =>
    if hasKey kvs "step" && hasKey kvs "lower" && hasKey kvs "upper" then
      match dlookup kvs "lower", dlookup kvs "upper" with
      | some lv, some uv =>
        if isNumericPy lv && isNumericPy uv then
          let worker_id := toString run_id ++ "_" ++ toString target_id ++ "_" ++
            category ++ "_" ++ setting_key ++ "_" ++ toString constraint_idx
          let worker_hash := hash worker_id
          let shard_index : Nat := worker_hash % total_shards
          let delta := pyAbsNum (pySubNum uv lv)
          let shard_size := pyDivNum delta (.int (total_shards : Int))
          let overlap : Int := qTrunc2 (toRat (pyMulNum shard_size
            (.float (flQ (mkRat 1 10)))))
          let new_lower := pyAddNum lv (pyMulNum shard_size (.int (shard_index : Int)))
          let new_upper := pyAddNum lv (pyMulNum shard_size (.int ((shard_index : Int) + 1)))
          let nl := pyMax lv (pySubNum new_lower (.int overlap))
          let nu := pyMin uv (pyAddNum new_upper (.int overlap))
          .dict (setKey (setKey kvs "lower" nl) "upper" nu)
        else c
      | _, _ => c
    else c
  | _ => c

/-- `shardSettingValue` with binary64 constraint sharding. -/
def shardSettingValueFloat (hash : String → Nat) (run_id target_id total_shards : Nat)
    (category setting_key : String) (v : PyVal) : PyVal :=
  match v with
  | .dict kvs =>
    match dlookup kvs "constraints" with
    | some (.list cs) =>
      match cs with
      | [] => .dict kvs
      | first :: _ =>
        match first with
        | .dict fkvs =>
          if hasKey fkvs "values" then .dict kvs
          else
            .dict (setKey kvs "constraints"
              (.list (cs.enum.map (fun ic =>
                shardConstraintFloat hash run_id target_id total_shards category
                  setting_key ic.1 ic.2))))
        | _ => .dict kvs
    | some _ => .dict kvs
    | Option.none => .dict kvs
  | v => v

/-- `shardCategory` with binary64 constraint sharding. -/
def shardCategoryFloat (hash : String → Nat) (run_id target_id total_shards : Nat)
    (category : String) (v : PyVal) : PyVal :=
  match v with
  | .dict params =>
      .dict (params.map (fun kv =>
        (kv.1, shardSettingValueFloat hash run_id target_id total_shards category kv.1 kv.2)))
  | v => v

/-- `determine_config_shard` (`breeder_service.py` lines 49-133) under
CPython binary64 float semantics. -/
def determine_config_shard_float (hash : String → Nat) (run_id target_id : Nat)
    (targets_count : Nat) (config : PyVal) (parallel_runs_count : Nat) : PyVal :=
  match config with
  | .dict kvs =>
    match dlookup kvs "settings" with
    | some (.dict settings) =>
      let total_shards := targets_count * parallel_runs_count
      .dict (setKey kvs "settings" (.dict (settings.map (fun kv =>
        if kv.1 ∈ supported_categories then
          (kv.1, shardCategoryFloat hash run_id target_id total_shards kv.1 kv.2)
        else kv))))
    | some _ => config
    | Option.none => config
  | config => config

/-- A campaign definition with one integer-range constraint whose
bounds `2^60 .. 2^60 + 5` are not exactly representable spans in
binary64. -/
def hugeBoundsCfg : PyVal :=
  .dict [("settings", .dict [("sysctl", .dict [
    ("p1", .dict [("constraints", .list [.dict
      [("step", .int 1), ("lower", .int 1152921504606846976),
       ("upper", .int 1152921504606846981)]])])])])]

/-- C2 counterexample: under CPython binary64 float arithmetic the
1×1 grid does NOT always return the original bounds.  With
`lower = 2^60` and `upper = 2^60 + 5`, `overlap = int(5.0 * 0.1) = 0`
and `new_upper = float(2^60 + 5)` rounds down to `2^60`, so the
returned upper bound is the float `2^60`, strictly below the original
`upper` — the exact collapse claimed for every hash fails (here at the
hash value 0, with `shard_index = hash % 1 = 0` as for every hash). -/
theorem C2_counterexample :
    ∃ c',
      getConstraint (determine_config_shard_float zeroHash 0 0 1 hugeBoundsCfg 1)
        "sysctl" "p1" 0 = some c'
      ∧ constraintField c' "lower" = some (.int 1152921504606846976)
      ∧ constraintField c' "upper" = some (.float (mkRat 1152921504606846976 1))
      ∧ toRat (.float (mkRat 1152921504606846976 1)) < toRat (.int 1152921504606846981) :=
  ⟨_, rfl, rfl, rfl, by norm_num [toRat]⟩

end Godon
